import Mathlib

/-! # IPQ807x EDMA data plane, SSDK register shim and ethtool pause parameters

A shallow embedding of three C sources:

* `drivers/net/ethernet/qualcomm/essedma/edma/edma_data_plane.c`
* `drivers/net/phy/hppe/ssdk_plat.c`
* `drivers/net/ethernet/qualcomm/essedma/nss_dp_ethtools.c`

Kernel services (IRQ table, register writes, memory regions, skb helpers) are
modelled by explicit state and by event traces; helpers whose bodies live in
other files (`edma_ring_xmit`, `edma_hw_init`, ...) are oracles passed in an
environment record.  Constants of headers that are not among the sources are
parameters.
-/

namespace Edma

/-! ## Transmit path: `edma_if_xmit` -/

/-- Linux `NETDEV_TX_OK` (include/linux/netdevice.h). -/
def NETDEV_TX_OK : Int := 0

/-- Linux `NETDEV_TX_BUSY` (include/linux/netdevice.h). -/
def NETDEV_TX_BUSY : Int := 16

/-- Linux `ETH_HLEN` (include/uapi/linux/if_ether.h). -/
def ETH_HLEN : Nat := 14

/-- Width of `unsigned long` on the aarch64 target: `stats.tx_dropped` wraps at `2 ^ 64`. -/
def BITS_PER_LONG : Nat := 64

/-- Return codes of `edma_ring_xmit`; the enum is declared in `edma_data_plane.h`,
which is not among the sources, so its values are parameters. -/
structure EdmaTxCodes where
  EDMA_TX_OK : Int
  EDMA_TX_DESC : Int
  deriving DecidableEq, Repr

/-- The fields of `struct sk_buff` read by `edma_if_xmit`:
`skb_is_nonlinear` is `data_len != 0`, `skb_get_queue_mapping` is `queue_mapping`,
and `cloned`, `headroom`, `tailroom` are the values of `skb_cloned`,
`skb_headroom` and `skb_tailroom`. -/
structure SkBuff where
  len : Nat
  data_len : Nat
  queue_mapping : Nat
  cloned : Bool
  headroom : Nat
  tailroom : Nat
  deriving DecidableEq, Repr

/-- The fields of `struct net_device` used by `edma_if_xmit`; `queue_stopped`
is the stopped state of the device Tx queue set by `netif_stop_queue`. -/
structure NetDevice where
  needed_headroom : Nat
  needed_tailroom : Nat
  tx_dropped : Nat
  queue_stopped : Bool
  deriving DecidableEq, Repr

/-- Calls made by `edma_if_xmit`, in program order. -/
inductive XmitEvent where
  | pskb_expand_head (nhead ntail : Nat)
  | edma_ring_xmit (tx_ring : Nat)
  | netif_stop_queue
  | dev_kfree_skb_any
  deriving DecidableEq, Repr

/-- External helpers of the transmit path: `pskb_expand_head` returns its status
(0 on success) and the reallocated skb, `edma_ring_xmit` returns its status for
the given device, skb and Tx ring index. -/
structure XmitEnv where
  pskb_expand_head : SkBuff → Nat → Nat → Int × SkBuff
  edma_ring_xmit : NetDevice → SkBuff → Nat → Int

/-- What `edma_if_xmit` leaves behind: its return value, the net device,
whether the skb was freed, and the calls it made. -/
structure XmitResult where
  ret : Int
  netdev : NetDevice
  skb_freed : Bool
  events : List XmitEvent
  deriving DecidableEq, Repr

/-- Tx ring selection of `edma_if_xmit` (lines 152-155):
`tx_ring = 0; if (txdesc_rings > 1 && skbq > 0) tx_ring = txdesc_rings % skbq;`. -/
def xmit_tx_ring (txdesc_rings skbq : Nat) : Nat :=
  if txdesc_rings > 1 ∧ skbq > 0 then txdesc_rings % skbq else 0

/-- The `expand_skb` flag of `edma_if_xmit` (lines 171-175).  The third
disjunct compares the *headroom* with `ntail`, as the source does. -/
def xmit_expand_skb (netdev : NetDevice) (skb : SkBuff) : Bool :=
  skb.cloned || decide (skb.headroom < netdev.needed_headroom)
    || decide (skb.headroom < netdev.needed_tailroom)

/-- The `drop:` label of `edma_if_xmit`: free the skb, count the drop,
return `NETDEV_TX_OK`. -/
def xmit_drop (netdev : NetDevice) (events : List XmitEvent) : XmitResult :=
  { ret := NETDEV_TX_OK
    netdev := { netdev with tx_dropped := (netdev.tx_dropped + 1) % 2 ^ BITS_PER_LONG }
    skb_freed := true
    events := events ++ [XmitEvent.dev_kfree_skb_any] }

/-- The tail of `edma_if_xmit` from the call of `edma_ring_xmit` on (lines 188-205). -/
def xmit_send (codes : EdmaTxCodes) (env : XmitEnv) (netdev : NetDevice)
    (skb : SkBuff) (tx_ring : Nat) (events : List XmitEvent) : XmitResult :=
  let ret := env.edma_ring_xmit netdev skb tx_ring
  let events := events ++ [XmitEvent.edma_ring_xmit tx_ring]
  if ret = codes.EDMA_TX_OK then
    { ret := NETDEV_TX_OK, netdev := netdev, skb_freed := false, events := events }
  else if ret = codes.EDMA_TX_DESC then
    { ret := NETDEV_TX_BUSY
      netdev := { netdev with queue_stopped := true }
      skb_freed := false
      events := events ++ [XmitEvent.netif_stop_queue] }
  else
    xmit_drop netdev events

/-- `edma_if_xmit(dpc, skb)` with `netdev = dpc->dev` and
`txdesc_rings = edma_hw.txdesc_rings`. -/
def edma_if_xmit (codes : EdmaTxCodes) (env : XmitEnv) (txdesc_rings : Nat)
    (netdev : NetDevice) (skb : SkBuff) : XmitResult :=
  if skb.len < ETH_HLEN then
    xmit_drop netdev []
  else
    let skbq := skb.queue_mapping
    let tx_ring := xmit_tx_ring txdesc_rings skbq
    if skb.data_len ≠ 0 then
      xmit_drop netdev []
    else
      let nhead := netdev.needed_headroom
      let ntail := netdev.needed_tailroom
      if xmit_expand_skb netdev skb then
        let r := env.pskb_expand_head skb nhead ntail
        if r.1 ≠ 0 then
          xmit_drop netdev [XmitEvent.pskb_expand_head nhead ntail]
        else
          xmit_send codes env netdev r.2 tx_ring [XmitEvent.pskb_expand_head nhead ntail]
      else
        xmit_send codes env netdev skb tx_ring []

/-- The skb handed to `edma_ring_xmit`: the original one, or the one returned
by `pskb_expand_head` when `expand_skb` is set. -/
def xmit_skb (env : XmitEnv) (netdev : NetDevice) (skb : SkBuff) : SkBuff :=
  if xmit_expand_skb netdev skb then
    (env.pskb_expand_head skb netdev.needed_headroom netdev.needed_tailroom).2
  else skb

/-- What the specification means by an skb that needs expansion before it
can be sent: it is cloned, or its headroom is below the device's
`needed_headroom`, or its tailroom is below the device's `needed_tailroom`. -/
def skb_needs_expansion (netdev : NetDevice) (skb : SkBuff) : Bool :=
  skb.cloned || decide (skb.headroom < netdev.needed_headroom)
    || decide (skb.tailroom < netdev.needed_tailroom)

/-- The packet passes the length, linearity and headroom/expansion checks of
`edma_if_xmit`, so that `edma_ring_xmit` is reached. -/
def xmit_passes_checks (env : XmitEnv) (netdev : NetDevice) (skb : SkBuff) : Prop :=
  ¬ skb.len < ETH_HLEN ∧ skb.data_len = 0 ∧
    (xmit_expand_skb netdev skb = true →
      (env.pskb_expand_head skb netdev.needed_headroom netdev.needed_tailroom).1 = 0)

/-! ## Interrupt set-up and teardown: `edma_irq_init`, `edma_cleanup` -/

/-- EDMA registers written by this file.  The address macros are declared in
`edma_regs.h`, which is not among the sources; a register is identified by
its macro and, for per-ring registers, the ring id passed to the macro. -/
inductive EdmaReg where
  | RXDESC_CTRL (id : Nat)
  | TXDESC_CTRL (id : Nat)
  | RXFILL_RING_EN (id : Nat)
  | RXFILL_INT_MASK (id : Nat)
  | TX_INT_MASK (id : Nat)
  | RXDESC_INT_MASK (id : Nat)
  | MISC_INT_MASK
  | PORT_CTRL
  deriving DecidableEq, Repr

/-- Register values named by macros of `edma_regs.h` (not among the sources),
taken as parameters. -/
structure EdmaRegDefs where
  EDMA_RING_DISABLE : Nat
  EDMA_MASK_INT_CLEAR : Nat
  EDMA_DISABLE : Nat
  deriving DecidableEq, Repr

/-- The two interrupt handlers registered by `edma_irq_init`. -/
inductive IrqHandler where
  | edma_handle_irq
  | edma_handle_misc_irq
  deriving DecidableEq, Repr

/-- Kernel calls and register writes issued by the driver, in program order.
`dev_id` is the cookie pointer, as an address. -/
inductive KEvent where
  | request_irq (irq : Int) (handler : IrqHandler) (name : String) (dev_id : Nat)
  | synchronize_irq (irq : Int)
  | free_irq (irq : Int) (dev_id : Nat)
  | reg_write (reg : EdmaReg) (val : Nat)
  | netif_napi_add
  | napi_enable
  | napi_disable
  | netif_napi_del
  | edma_cleanup_rings
  | request_mem_region
  | ioremap_nocache
  | edma_hw_init
  | platform_set_drvdata
  | iounmap
  | release_mem_region
  deriving DecidableEq, Repr

/-- One installed handler of a (shared) interrupt line: what `request_irq`
records and `free_irq` looks up by `irq` and `dev_id`. -/
structure IrqAction where
  irq : Int
  handler : IrqHandler
  name : String
  dev_id : Nat
  deriving DecidableEq, Repr

/-- Kernel-side state touched by the driver: the installed interrupt handlers,
whether the EDMA register region is held and mapped, whether the NAPI context
`edma_hw.napi` is enabled, the references the driver holds on device-tree
nodes (`of_find_node_by_name`) and on platform devices
(`of_find_device_by_node`), the clock rates it has set (`clk_set_rate`), the
clocks it has obtained and enabled (`of_clk_get_by_name`,
`clk_prepare_enable`), and the call trace. -/
structure Kernel where
  irq_actions : List IrqAction
  mem_region_held : Bool
  reg_mapped : Bool
  napi_enabled : Bool
  node_refs : Nat
  device_refs : Nat
  clock_rates : List (String × Nat)
  clocks_enabled : List String
  trace : List KEvent
  deriving DecidableEq, Repr

/-- One descriptor ring of `struct edma_hw`; only its hardware `id` is used here. -/
structure EdmaRing where
  id : Nat
  deriving DecidableEq, Repr

/-- The fields of the global `struct edma_hw edma_hw` used by the interrupt and
teardown code.  Arrays are maps from index to cell; `pdev` is the address of
the platform device.  IRQ numbers are kept as signed values, as returned by
`platform_get_irq`, so that the `< 0` tests of `edma_irq_init` can fire.
`netdev_arr` holds net-device pointers as addresses (0 is NULL); `active`
counts the open interfaces and is kept as an unbounded integer. -/
structure EdmaHw where
  pdev : Nat
  txdesc_rings : Nat
  txcmpl_rings : Nat
  rxfill_rings : Nat
  rxdesc_rings : Nat
  txdesc_ring_start : Nat
  txdesc_ring_end : Nat
  txcmpl_ring_start : Nat
  txcmpl_ring_end : Nat
  rxfill_ring_start : Nat
  rxfill_ring_end : Nat
  rxdesc_ring_start : Nat
  rxdesc_ring_end : Nat
  txcmpl_ring : Nat → EdmaRing
  rxfill_ring : Nat → EdmaRing
  rxdesc_ring : Nat → EdmaRing
  txcmpl_intr : Nat → Int
  rxfill_intr : Nat → Int
  rxdesc_intr : Nat → Int
  misc_intr : Int
  txcmpl_intr_mask : Nat
  rxfill_intr_mask : Nat
  rxdesc_intr_mask : Nat
  misc_intr_mask : Nat
  napi_added : Nat
  netdev_arr : Nat → Nat
  active : Int

/-- Kernel behaviour the interrupt code depends on: the IRQ number
`platform_get_irq` returns for each resource entry (negative on failure), the
status `request_irq` returns for an IRQ number (0 on success), and
`offsetof(struct platform_device, dev)`. -/
structure IrqEnv where
  platform_get_irq : Nat → Int
  request_irq_err : Int → Int
  dev_offset : Nat

/-- The effect of one traced event on the content of register `reg`: a write
to `reg` replaces it, anything else leaves it. -/
def reg_step (reg : EdmaReg) (acc : Option Nat) : KEvent → Option Nat
  | KEvent.reg_write r v => if r = reg then some v else acc
  | _ => acc

/-- The value register `reg` holds after the traced writes: that of the last
write to it, `none` if it was never written. -/
def reg_value (reg : EdmaReg) (trace : List KEvent) : Option Nat :=
  trace.foldl (reg_step reg) none

/-- The cookie `(void *)edma_hw.pdev` passed to `request_irq`. -/
def request_dev_id (hw : EdmaHw) : Nat := hw.pdev

/-- The cookie `(void *)&(edma_hw.pdev)->dev` passed to `free_irq`. -/
def free_dev_id (env : IrqEnv) (hw : EdmaHw) : Nat := hw.pdev + env.dev_offset

/-- Linux `request_irq` with `IRQF_SHARED`: on success the handler is added to
the line and 0 is returned, on failure nothing is installed. -/
def request_irq (env : IrqEnv) (k : Kernel) (irq : Int) (handler : IrqHandler)
    (name : String) (dev_id : Nat) : Int × Kernel :=
  let k1 := { k with trace := k.trace ++ [KEvent.request_irq irq handler name dev_id] }
  if env.request_irq_err irq ≠ 0 then
    (env.request_irq_err irq, k1)
  else
    (0, { k1 with irq_actions := k1.irq_actions ++ [⟨irq, handler, name, dev_id⟩] })

/-- Remove the first handler of line `irq` whose cookie is `dev_id`. -/
def remove_action (irq : Int) (dev_id : Nat) : List IrqAction → List IrqAction
  | [] => []
  | a :: rest =>
    if a.irq = irq ∧ a.dev_id = dev_id then rest
    else a :: remove_action irq dev_id rest

/-- Linux `free_irq`: the handler installed on `irq` with the same `dev_id` is
removed; when no handler of the line carries that cookie nothing is removed. -/
def free_irq (k : Kernel) (irq : Int) (dev_id : Nat) : Kernel :=
  { k with
    irq_actions := remove_action irq dev_id k.irq_actions
    trace := k.trace ++ [KEvent.free_irq irq dev_id] }

/-- Linux `synchronize_irq`: waits for running handlers; only traced. -/
def synchronize_irq (k : Kernel) (irq : Int) : Kernel :=
  { k with trace := k.trace ++ [KEvent.synchronize_irq irq] }

/-- `edma_reg_write(reg_off, val)`. -/
def edma_reg_write (k : Kernel) (reg : EdmaReg) (val : Nat) : Kernel :=
  { k with trace := k.trace ++ [KEvent.reg_write reg val] }

/-- One "Get ... rings IRQ numbers" loop of `edma_irq_init`:
`for (...; i < n; i++, entry_num++) { intr[i] = platform_get_irq(pdev, entry_num);
if (intr[i] < 0) return -1; }`.  The indices still to visit are `is`; the
result is `none` when the function returned -1 (the array keeps the failed
entry), else the next `entry_num`. -/
def get_irq_loop (env : IrqEnv) : List Nat → Nat → (Nat → Int) → Option Nat × (Nat → Int)
  | [], entry_num, intr => (some entry_num, intr)
  | i :: is, entry_num, intr =>
    let intr1 := Function.update intr i (env.platform_get_irq entry_num)
    if intr1 i < 0 then (none, intr1)
    else get_irq_loop env is (entry_num + 1) intr1

/-- One "Request IRQ for ... rings" loop of `edma_irq_init`:
`for (i = 0; i < n; i++) { err = request_irq(intr[i], edma_handle_irq,
IRQF_SHARED, name, (void *)edma_hw.pdev); if (err) <leave>; }`.
The flag is `false` when the loop was left on an error. -/
def request_irq_loop (env : IrqEnv) (intr : Nat → Int) (name : String) (dev_id : Nat) :
    List Nat → Kernel → Bool × Kernel
  | [], k => (true, k)
  | i :: is, k =>
    let r := request_irq env k (intr i) IrqHandler.edma_handle_irq name dev_id
    if r.1 ≠ 0 then (false, r.2)
    else request_irq_loop env intr name dev_id is r.2

/-- One "Free IRQ for ... rings" loop:
`for (i = 0; i < n; i++) { synchronize_irq(intr[i]); free_irq(intr[i], dev_id); }`. -/
def free_irq_loop (intr : Nat → Int) (dev_id : Nat) (n : Nat) (k : Kernel) : Kernel :=
  (List.range n).foldl (fun k i => free_irq (synchronize_irq k (intr i)) (intr i) dev_id) k

/-- A loop writing one value to a per-ring register:
`for (i = 0; i < n; i++) edma_reg_write(REG(ring[i].id), val);`. -/
def reg_write_loop (reg : Nat → EdmaReg) (ring : Nat → EdmaRing) (val : Nat)
    (is : List Nat) (k : Kernel) : Kernel :=
  is.foldl (fun k i => edma_reg_write k (reg (ring i).id) val) k

/-- The label `rx_fill_ring_intr_req_fail:` of `edma_irq_init` (lines 467-479). -/
def irq_init_rx_fill_fail (env : IrqEnv) (hw : EdmaHw) (k : Kernel) : Int × Kernel :=
  (-1, free_irq_loop hw.txcmpl_intr (free_dev_id env hw) hw.txcmpl_rings k)

/-- The label `rx_desc_ring_intr_req_fail:` of `edma_irq_init` (lines 456-465),
falling through to the next label. -/
def irq_init_rx_desc_fail (env : IrqEnv) (hw : EdmaHw) (k : Kernel) : Int × Kernel :=
  irq_init_rx_fill_fail env hw
    (free_irq_loop hw.rxfill_intr (free_dev_id env hw) hw.rxfill_rings k)

/-- The label `misc_intr_req_fail:` of `edma_irq_init` (lines 445-454),
falling through to the next label. -/
def irq_init_misc_fail (env : IrqEnv) (hw : EdmaHw) (k : Kernel) : Int × Kernel :=
  irq_init_rx_desc_fail env hw
    (free_irq_loop hw.rxdesc_intr (free_dev_id env hw) hw.rxdesc_rings k)

/-- The "Set interrupt mask" block of `edma_irq_init` (lines 421-442). -/
def irq_init_set_masks (hw : EdmaHw) (k : Kernel) : Kernel :=
  let k1 := reg_write_loop EdmaReg.RXFILL_INT_MASK hw.rxfill_ring hw.rxfill_intr_mask
    (List.range hw.rxfill_rings) k
  let k2 := reg_write_loop EdmaReg.TX_INT_MASK hw.txcmpl_ring hw.txcmpl_intr_mask
    (List.range hw.txcmpl_rings) k1
  let k3 := reg_write_loop EdmaReg.RXDESC_INT_MASK hw.rxdesc_ring hw.rxdesc_intr_mask
    (List.range hw.rxdesc_rings) k2
  edma_reg_write k3 EdmaReg.MISC_INT_MASK hw.misc_intr_mask

/-- The second half of `edma_irq_init` (lines 366-480): request the IRQs, then
program the masks, or unwind through the failure labels. -/
def irq_init_request (env : IrqEnv) (hw : EdmaHw) (k : Kernel) : Int × Kernel :=
  let r1 := request_irq_loop env hw.txcmpl_intr "edma_txcmpl" (request_dev_id hw)
    (List.range hw.txcmpl_rings) k
  if r1.1 = false then (-1, r1.2)
  else
    let r2 := request_irq_loop env hw.rxfill_intr "edma_rxfill" (request_dev_id hw)
      (List.range hw.rxfill_rings) r1.2
    if r2.1 = false then irq_init_rx_fill_fail env hw r2.2
    else
      let r3 := request_irq_loop env hw.rxdesc_intr "edma_rxdesc" (request_dev_id hw)
        (List.range hw.rxdesc_rings) r2.2
      if r3.1 = false then irq_init_rx_desc_fail env hw r3.2
      else
        let r4 := request_irq env r3.2 hw.misc_intr IrqHandler.edma_handle_misc_irq
          "edma_misc" (request_dev_id hw)
        if r4.1 ≠ 0 then irq_init_misc_fail env hw r4.2
        else (0, irq_init_set_masks hw r4.2)

/-- `edma_irq_init()`: returns the status, the updated `edma_hw` (IRQ numbers)
and the kernel state. -/
def edma_irq_init (env : IrqEnv) (hw : EdmaHw) (k : Kernel) : Int × EdmaHw × Kernel :=
  let g1 := get_irq_loop env (List.range hw.txcmpl_rings) 0 hw.txcmpl_intr
  let hw1 := { hw with txcmpl_intr := g1.2 }
  match g1.1 with
  | none => (-1, hw1, k)
  | some e1 =>
    let g2 := get_irq_loop env (List.range hw.rxfill_rings) e1 hw.rxfill_intr
    let hw2 := { hw1 with rxfill_intr := g2.2 }
    match g2.1 with
    | none => (-1, hw2, k)
    | some e2 =>
      let g3 := get_irq_loop env (List.range hw.rxdesc_rings) e2 hw.rxdesc_intr
      let hw3 := { hw2 with rxdesc_intr := g3.2 }
      match g3.1 with
      | none => (-1, hw3, k)
      | some e3 =>
        let hw4 := { hw3 with misc_intr := env.platform_get_irq e3 }
        let r := irq_init_request env hw4 k
        (r.1, hw4, r.2)

/-- The "Remove interrupt handlers and NAPI" block of `edma_cleanup`
(lines 952-988), entered when `edma_hw.napi_added` is set. -/
def cleanup_free_irqs (env : IrqEnv) (hw : EdmaHw) (k : Kernel) : Kernel :=
  let k1 := free_irq_loop hw.txcmpl_intr (free_dev_id env hw) hw.txcmpl_rings k
  let k2 := free_irq_loop hw.rxfill_intr (free_dev_id env hw) hw.rxfill_rings k1
  let k3 := free_irq_loop hw.rxdesc_intr (free_dev_id env hw) hw.rxdesc_rings k2
  let k4 := free_irq (synchronize_irq k3 hw.misc_intr) hw.misc_intr (free_dev_id env hw)
  { k4 with trace := k4.trace ++ [KEvent.netif_napi_del] }

/-- The ring-disable loops of `edma_cleanup` (lines 912-931).  The Tx loop
runs `i` over the TXDESC id range and writes `EDMA_REG_TXDESC_CTRL` of
`edma_hw.txcmpl_ring[i].id`, as the source does. -/
def cleanup_disable_rings (defs : EdmaRegDefs) (hw : EdmaHw) (k : Kernel) : Kernel :=
  let k1 := (List.range' hw.rxdesc_ring_start (hw.rxdesc_ring_end - hw.rxdesc_ring_start)).foldl
    (fun k i => edma_reg_write k (EdmaReg.RXDESC_CTRL i) defs.EDMA_RING_DISABLE) k
  let k2 := reg_write_loop EdmaReg.TXDESC_CTRL hw.txcmpl_ring defs.EDMA_RING_DISABLE
    (List.range' hw.txdesc_ring_start (hw.txdesc_ring_end - hw.txdesc_ring_start)) k1
  (List.range' hw.rxfill_ring_start (hw.rxfill_ring_end - hw.rxfill_ring_start)).foldl
    (fun k i => edma_reg_write k (EdmaReg.RXFILL_RING_EN i) defs.EDMA_RING_DISABLE) k2

/-- The "Clear interrupt mask" block of `edma_cleanup` (lines 933-948). -/
def cleanup_clear_masks (defs : EdmaRegDefs) (hw : EdmaHw) (k : Kernel) : Kernel :=
  let k1 := reg_write_loop EdmaReg.RXDESC_INT_MASK hw.rxdesc_ring defs.EDMA_MASK_INT_CLEAR
    (List.range hw.rxdesc_rings) k
  let k2 := reg_write_loop EdmaReg.TX_INT_MASK hw.txcmpl_ring defs.EDMA_MASK_INT_CLEAR
    (List.range hw.txcmpl_rings) k1
  edma_reg_write k2 EdmaReg.MISC_INT_MASK defs.EDMA_MASK_INT_CLEAR

/-- `edma_cleanup()`. -/
def edma_cleanup (defs : EdmaRegDefs) (env : IrqEnv) (hw : EdmaHw) (k : Kernel) : Kernel :=
  let k1 := cleanup_disable_rings defs hw k
  let k2 := cleanup_clear_masks defs hw k1
  let k3 := if hw.napi_added ≠ 0 then cleanup_free_irqs env hw k2 else k2
  let k4 := edma_reg_write k3 EdmaReg.PORT_CTRL defs.EDMA_DISABLE
  let k5 := if hw.napi_added ≠ 0 then { k4 with trace := k4.trace ++ [KEvent.netif_napi_del] }
    else k4
  { k5 with
    mem_region_held := false
    reg_mapped := false
    trace := k5.trace ++
      [KEvent.edma_cleanup_rings, KEvent.iounmap, KEvent.release_mem_region] }

/-! ## Driver initialisation: `edma_of_get_pdata`, `edma_init` -/

/-- Linux `EINVAL`. -/
def EINVAL : Int := 22

/-- Linux `EFAULT`. -/
def EFAULT : Int := 14

/-- What the device tree and the OF helpers answer to `edma_of_get_pdata`:
the node and platform-device pointers (0 is NULL), the names of the clocks
`of_clk_get_by_name` finds on the node, whether `of_address_to_resource`
succeeds, and the value each `of_property_read_u32` delivers (`none` when the
property cannot be read). -/
structure EdmaDt where
  device_node : Nat
  pdev : Nat
  clocks : List String
  reg_resource_ok : Bool
  txdesc_ring_start : Option Nat
  txdesc_rings : Option Nat
  txcmpl_ring_start : Option Nat
  txcmpl_rings : Option Nat
  rxfill_ring_start : Option Nat
  rxfill_rings : Option Nat
  rxdesc_ring_start : Option Nat
  rxdesc_rings : Option Nat
  deriving DecidableEq, Repr

/-- `dev_clock_rate_set_and_enable(node, clock_id, rate)`: when the clock is
found, its rate is set if `rate` is non-zero and the clock is prepared and
enabled; the clock obtained is never put back. -/
def dev_clock_rate_set_and_enable (dt : EdmaDt) (k : Kernel) (clock_id : String)
    (rate : Nat) : Kernel :=
  if clock_id ∈ dt.clocks then
    let k := if rate ≠ 0 then { k with clock_rates := k.clock_rates ++ [(clock_id, rate)] }
      else k
    { k with clocks_enabled := k.clocks_enabled ++ [clock_id] }
  else k

/-- The clocks and rates of `ssdk_ppe_fixed_clock_init`, in call order
(lines 659-716, with the macros of lines 578-651 expanded). -/
def ssdk_ppe_fixed_clocks : List (String × Nat) :=
  [("cmn_ahb_clk", 0), ("cmn_sys_clk", 0),
   ("uniphy0_ahb_clk", 100000000), ("uniphy0_sys_clk", 19200000),
   ("uniphy1_ahb_clk", 100000000), ("uniphy1_sys_clk", 19200000),
   ("uniphy2_ahb_clk", 100000000), ("uniphy2_sys_clk", 19200000),
   ("port1_mac_clk", 300000000), ("port2_mac_clk", 300000000),
   ("port3_mac_clk", 300000000), ("port4_mac_clk", 300000000),
   ("port5_mac_clk", 300000000), ("port6_mac_clk", 300000000),
   ("nss_ppe_clk", 300000000), ("nss_ppe_cfg_clk", 300000000),
   ("nssnoc_ppe_clk", 300000000), ("nssnoc_ppe_cfg_clk", 300000000),
   ("nss_edma_clk", 300000000), ("nss_edma_cfg_clk", 300000000),
   ("nss_ppe_ipe_clk", 300000000), ("nss_ppe_btq_clk", 300000000),
   ("gcc_mdio_ahb_clk", 100000000), ("gcc_nss_noc_clk", 461500000),
   ("gcc_nssnoc_snoc_clk", 266670000), ("gcc_mem_noc_nss_axi_clk", 461500000),
   ("gcc_nss_crypto_clk", 300000000), ("gcc_nss_imem_clk", 400000000),
   ("gcc_nss_ptp_ref_clk", 150000000)]

/-- `ssdk_ppe_fixed_clock_init(clock_node)`: one
`dev_clock_rate_set_and_enable` call per fixed clock. -/
def ssdk_ppe_fixed_clock_init (dt : EdmaDt) (k : Kernel) : Kernel :=
  ssdk_ppe_fixed_clocks.foldl (fun k c => dev_clock_rate_set_and_enable dt k c.1 c.2) k

/-- `edma_of_get_pdata(&res_edma)`: finds the EDMA node and its platform
device, taking a reference on each, sets up the fixed clocks, then reads the
ring layout into `edma_hw`; it returns `-EINVAL` at the first lookup that
fails, releasing nothing.  The ring ends are `uint32_t` sums.
(`edma_hw.device_node` is not kept: only its NULL test matters here.) -/
def edma_of_get_pdata (dt : EdmaDt) (hw : EdmaHw) (k : Kernel) : Int × EdmaHw × Kernel :=
  if dt.device_node = 0 then (-EINVAL, hw, k)
  else
    let k := { k with node_refs := k.node_refs + 1 }
    let hw := { hw with pdev := dt.pdev }
    if hw.pdev = 0 then (-EINVAL, hw, k)
    else
      let k := { k with device_refs := k.device_refs + 1 }
      let k := ssdk_ppe_fixed_clock_init dt k
      if dt.reg_resource_ok = false then (-EINVAL, hw, k)
      else
      match dt.txdesc_ring_start with
      | none => (-EINVAL, hw, k)
      | some v1 =>
      let hw := { hw with txdesc_ring_start := v1 }
      match dt.txdesc_rings with
      | none => (-EINVAL, hw, k)
      | some v2 =>
      let hw := { hw with txdesc_rings := v2 }
      let hw := { hw with
        txdesc_ring_end := (hw.txdesc_ring_start + hw.txdesc_rings) % 2 ^ 32 }
      match dt.txcmpl_ring_start with
      | none => (-EINVAL, hw, k)
      | some v3 =>
      let hw := { hw with txcmpl_ring_start := v3 }
      match dt.txcmpl_rings with
      | none => (-EINVAL, hw, k)
      | some v4 =>
      let hw := { hw with txcmpl_rings := v4 }
      let hw := { hw with
        txcmpl_ring_end := (hw.txcmpl_ring_start + hw.txcmpl_rings) % 2 ^ 32 }
      match dt.rxfill_ring_start with
      | none => (-EINVAL, hw, k)
      | some v5 =>
      let hw := { hw with rxfill_ring_start := v5 }
      match dt.rxfill_rings with
      | none => (-EINVAL, hw, k)
      | some v6 =>
      let hw := { hw with rxfill_rings := v6 }
      let hw := { hw with
        rxfill_ring_end := (hw.rxfill_ring_start + hw.rxfill_rings) % 2 ^ 32 }
      match dt.rxdesc_ring_start with
      | none => (-EINVAL, hw, k)
      | some v7 =>
      let hw := { hw with rxdesc_ring_start := v7 }
      match dt.rxdesc_rings with
      | none => (-EINVAL, hw, k)
      | some v8 =>
      let hw := { hw with rxdesc_rings := v8 }
      let hw := { hw with
        rxdesc_ring_end := (hw.rxdesc_ring_start + hw.rxdesc_rings) % 2 ^ 32 }
      (0, hw, k)

/-- What `edma_init` meets outside this file: the device tree, whether
`request_mem_region` and `ioremap_nocache` return a non-NULL pointer, and
`edma_hw_init` (status and the `edma_hw` it leaves). -/
structure InitEnv where
  dt : EdmaDt
  request_mem_region_ok : Bool
  ioremap_ok : Bool
  edma_hw_init : EdmaHw → Int × EdmaHw

/-- Append one call to the kernel trace. -/
def Kernel.log (k : Kernel) (e : KEvent) : Kernel :=
  { k with trace := k.trace ++ [e] }

/-- The label `edma_init_remap_fail:` of `edma_init`: release the region and
return `ret`. -/
def edma_init_remap_fail (ret : Int) (hw : EdmaHw) (k : Kernel) : Int × EdmaHw × Kernel :=
  (ret, hw, { k with mem_region_held := false }.log KEvent.release_mem_region)

/-- The label `edma_init_hw_init_fail:` of `edma_init`: unmap the registers,
then fall through to `edma_init_remap_fail`. -/
def edma_init_hw_init_fail (ret : Int) (hw : EdmaHw) (k : Kernel) : Int × EdmaHw × Kernel :=
  edma_init_remap_fail ret hw ({ k with reg_mapped := false }.log KEvent.iounmap)

/-- `edma_init()`. -/
def edma_init (env : InitEnv) (hw : EdmaHw) (k : Kernel) : Int × EdmaHw × Kernel :=
  let ret : Int := 0
  let pd := edma_of_get_pdata env.dt hw k
  if pd.1 < 0 then (0, pd.2.1, pd.2.2)
  else
    let hw := pd.2.1
    let k := pd.2.2
    let k := k.log KEvent.request_mem_region
    if env.request_mem_region_ok = false then (-EFAULT, hw, k)
    else
      let k := { k with mem_region_held := true }
      let k := k.log KEvent.ioremap_nocache
      if env.ioremap_ok = false then
        let ret := -EFAULT
        edma_init_remap_fail ret hw k
      else
        let k := { k with reg_mapped := true }
        let hi := env.edma_hw_init hw
        let k := k.log KEvent.edma_hw_init
        if hi.1 ≠ 0 then
          let ret := -EFAULT
          edma_init_hw_init_fail ret hi.2 k
        else
          let hw := hi.2
          let k := k.log KEvent.platform_set_drvdata
          let hw := { hw with napi_added := 0 }
          (ret, hw, k)

/-! ## Net-device table, NAPI reference count and VSI stubs -/

/-- The port range macros `EDMA_START_GMACS` and `EDMA_MAX_GMACS` of
`edma_data_plane.h`, which is not among the sources.  `EDMA_MAX_GMACS` is also
the number of cells of `edma_hw.netdev_arr`. -/
structure EdmaGmacDefs where
  EDMA_START_GMACS : Nat
  EDMA_MAX_GMACS : Nat
  deriving DecidableEq, Repr

/-- The status codes `NSS_DP_SUCCESS` and `NSS_DP_FAILURE` of the data-plane
interface header, which is not among the sources. -/
structure NssDpCodes where
  NSS_DP_SUCCESS : Int
  NSS_DP_FAILURE : Int
  deriving DecidableEq, Repr

/-- The loop of `edma_get_port_num_from_netdev` over the indices `is`:
`if (edma_hw.netdev_arr[i] == netdev) return i+1;`, and `-1` after the loop. -/
def port_num_loop (netdev_arr : Nat → Nat) (netdev : Nat) : List Nat → Int
  | [] => -1
  | i :: is =>
    if netdev_arr i = netdev then (i : Int) + 1
    else port_num_loop netdev_arr netdev is

/-- `edma_get_port_num_from_netdev(netdev)`. -/
def edma_get_port_num_from_netdev (g : EdmaGmacDefs) (hw : EdmaHw) (netdev : Nat) : Int :=
  port_num_loop hw.netdev_arr netdev (List.range g.EDMA_MAX_GMACS)

/-- `edma_if_open(dpc, tx_desc_ring, rx_desc_ring, mode)` with `dev = dpc->dev`
(0 is NULL); the ring and mode arguments are not used by the source. -/
def edma_if_open (codes : NssDpCodes) (hw : EdmaHw) (k : Kernel) (dev : Nat) :
    Int × EdmaHw × Kernel :=
  if dev = 0 then (codes.NSS_DP_FAILURE, hw, k)
  else
    let old := hw.active
    let hw := { hw with active := hw.active + 1 }
    if old ≠ 0 then (codes.NSS_DP_SUCCESS, hw, k)
    else
      (codes.NSS_DP_SUCCESS, hw,
        { k with napi_enabled := true, trace := k.trace ++ [KEvent.napi_enable] })

/-- `edma_if_close(dpc)`. -/
def edma_if_close (codes : NssDpCodes) (hw : EdmaHw) (k : Kernel) : Int × EdmaHw × Kernel :=
  let hw := { hw with active := hw.active - 1 }
  if hw.active ≠ 0 then (codes.NSS_DP_SUCCESS, hw, k)
  else
    (codes.NSS_DP_SUCCESS, hw,
      { k with napi_enabled := false, trace := k.trace ++ [KEvent.napi_disable] })

/-- A call of the open/close pair of the data-plane operations. -/
inductive IfOp where
  | op_open
  | op_close
  deriving DecidableEq, Repr

/-- One call: `edma_if_open` on a context whose `dev` is the given pointer, or
`edma_if_close`; the status is dropped. -/
def if_step (codes : NssDpCodes) (dev : Nat) (s : EdmaHw × Kernel) : IfOp → EdmaHw × Kernel
  | IfOp.op_open => (edma_if_open codes s.1 s.2 dev).2
  | IfOp.op_close => (edma_if_close codes s.1 s.2).2

/-- A sequence of open and close calls, run from left to right. -/
def if_run (codes : NssDpCodes) (dev : Nat) (ops : List IfOp) (s : EdmaHw × Kernel) :
    EdmaHw × Kernel :=
  ops.foldl (if_step codes dev) s

/-- `edma_if_vsi_assign(dpc, vsi)` with `netdev = dpc->dev`; `port_num` is an
`int32_t`.  The function writes nothing, so only its status is returned. -/
def edma_if_vsi_assign (codes : NssDpCodes) (g : EdmaGmacDefs) (hw : EdmaHw)
    (netdev _vsi : Nat) : Int :=
  let port_num : Int := edma_get_port_num_from_netdev g hw netdev
  if port_num < 0 then codes.NSS_DP_FAILURE
  else codes.NSS_DP_SUCCESS

/-- `edma_if_vsi_unassign(dpc, vsi)` with `netdev = dpc->dev`; here `port_num`
is declared `uint32_t`, so the result of the lookup is converted modulo `2 ^ 32`
before the test `port_num < 0`.  The function writes nothing. -/
def edma_if_vsi_unassign (codes : NssDpCodes) (g : EdmaGmacDefs) (hw : EdmaHw)
    (netdev _vsi : Nat) : Int :=
  let port_num : Nat := Int.toNat (edma_get_port_num_from_netdev g hw netdev % 2 ^ 32)
  if (port_num : Int) < 0 then codes.NSS_DP_FAILURE
  else codes.NSS_DP_SUCCESS

/-- `edma_register_netdevice(netdev, macid)`; `netdev` is the device pointer
(0 is NULL) and `macid` a `uint32_t`, so the index `macid - 1` is taken modulo
`2 ^ 32`. -/
def edma_register_netdevice (g : EdmaGmacDefs) (env : IrqEnv) (hw : EdmaHw) (k : Kernel)
    (netdev macid : Nat) : Int × EdmaHw × Kernel :=
  if netdev = 0 then (-EINVAL, hw, k)
  else if macid < g.EDMA_START_GMACS ∨ macid > g.EDMA_MAX_GMACS then (-EINVAL, hw, k)
  else
    let hw := { hw with netdev_arr := Function.update hw.netdev_arr ((macid + 2 ^ 32 - 1) % 2 ^ 32) netdev }
    if hw.napi_added = 0 then
      let k := k.log KEvent.netif_napi_add
      let r := edma_irq_init env hw k
      if r.1 < 0 then (-EINVAL, r.2.1, r.2.2)
      else (0, { r.2.1 with napi_added := 1 }, r.2.2)
    else (0, hw, k)

/-! ## Observations on the call trace -/

/-- The events of `l` are no register writes. -/
def no_reg_write (l : List KEvent) : Prop :=
  ∀ e ∈ l, ∀ reg v, e ≠ KEvent.reg_write reg v

/-- The `request_irq` calls the request half of `edma_irq_init` makes when every
request succeeds, with the IRQ numbers it reads from the tables of `edma_hw`. -/
def irq_table_requests (hw : EdmaHw) : List KEvent :=
  (List.range hw.txcmpl_rings).map (fun i =>
      KEvent.request_irq (hw.txcmpl_intr i) IrqHandler.edma_handle_irq "edma_txcmpl" hw.pdev) ++
  (List.range hw.rxfill_rings).map (fun i =>
      KEvent.request_irq (hw.rxfill_intr i) IrqHandler.edma_handle_irq "edma_rxfill" hw.pdev) ++
  (List.range hw.rxdesc_rings).map (fun i =>
      KEvent.request_irq (hw.rxdesc_intr i) IrqHandler.edma_handle_irq "edma_rxdesc" hw.pdev) ++
  [KEvent.request_irq hw.misc_intr IrqHandler.edma_handle_misc_irq "edma_misc" hw.pdev]

/-- The `request_irq` calls the specification expects of a successful
`edma_irq_init`, in program order: one for the interrupt of each TXCMPL ring
(resource entries `0 ..`), of each RXFILL ring (the entries after them), of each
RXDESC ring (the entries after those), and one for the misc interrupt (the
next entry), each with the IRQ number `platform_get_irq` gives for its entry. -/
def irq_init_requests (env : IrqEnv) (hw : EdmaHw) : List KEvent :=
  (List.range hw.txcmpl_rings).map (fun i =>
      KEvent.request_irq (env.platform_get_irq i)
        IrqHandler.edma_handle_irq "edma_txcmpl" hw.pdev) ++
  (List.range hw.rxfill_rings).map (fun i =>
      KEvent.request_irq (env.platform_get_irq (hw.txcmpl_rings + i))
        IrqHandler.edma_handle_irq "edma_rxfill" hw.pdev) ++
  (List.range hw.rxdesc_rings).map (fun i =>
      KEvent.request_irq (env.platform_get_irq (hw.txcmpl_rings + hw.rxfill_rings + i))
        IrqHandler.edma_handle_irq "edma_rxdesc" hw.pdev) ++
  [KEvent.request_irq
      (env.platform_get_irq (hw.txcmpl_rings + hw.rxfill_rings + hw.rxdesc_rings))
      IrqHandler.edma_handle_misc_irq "edma_misc" hw.pdev]

/-- The interrupt-mask writes of a successful `edma_irq_init`, in program order. -/
def irq_init_mask_writes (hw : EdmaHw) : List KEvent :=
  (List.range hw.rxfill_rings).map (fun i =>
      KEvent.reg_write (EdmaReg.RXFILL_INT_MASK (hw.rxfill_ring i).id) hw.rxfill_intr_mask) ++
  (List.range hw.txcmpl_rings).map (fun i =>
      KEvent.reg_write (EdmaReg.TX_INT_MASK (hw.txcmpl_ring i).id) hw.txcmpl_intr_mask) ++
  (List.range hw.rxdesc_rings).map (fun i =>
      KEvent.reg_write (EdmaReg.RXDESC_INT_MASK (hw.rxdesc_ring i).id) hw.rxdesc_intr_mask) ++
  [KEvent.reg_write EdmaReg.MISC_INT_MASK hw.misc_intr_mask]

end Edma

namespace Ssdk

/-! ## SSDK platform shim: `ssdk_plat.c` -/

/-- The macro `QCA_MAX_PHY_NUM` of `ssdk_plat.c`. -/
def QCA_MAX_PHY_NUM : Nat := 4

/-- The addresses of `struct qca_phy_priv` used by the register shim. -/
structure QcaPhyPriv where
  hw_addr : Nat
  psgmii_hw_addr : Nat
  uniphy_hw_addr : Nat
  deriving DecidableEq, Repr

/-- Error codes of `sw_error_t` used by the shim; the enum is declared in the
SSDK header `sw_error.h`, which is not among the sources. -/
structure SwCodes where
  SW_BAD_LEN : Int
  SW_BAD_PARAM : Int
  deriving DecidableEq, Repr

/-- UNIPHY macros of `hppe_init.h` and `ssdk_init.h`, which are not among the
sources. -/
structure HppeDefs where
  SSDK_UNIPHY_INSTANCE0 : Nat
  SSDK_UNIPHY_INSTANCE1 : Nat
  SSDK_UNIPHY_INSTANCE2 : Nat
  HPPE_UNIPHY_BASE1 : Nat
  HPPE_UNIPHY_BASE2 : Nat
  HPPE_UNIPHY_MAX_DIRECT_ACCESS_REG : Nat
  HPPE_UNIPHY_INDIRECT_REG_ADDR : Nat
  HPPE_UNIPHY_INDIRECT_LOW_ADDR : Nat
  HPPE_UNIPHY_INDIRECT_DATA : Nat
  deriving DecidableEq, Repr

/-- The globals of `ssdk_plat.c`: the cells of `qca_phy_priv_global`
(`none` is a NULL pointer; only indices below `QCA_MAX_PHY_NUM` exist) and
`m_used_dev_id`. -/
structure SsdkState where
  qca_phy_priv_global : Nat → Option QcaPhyPriv
  m_used_dev_id : Nat

/-- Ways in which an access leaves defined C behaviour. -/
inductive Fault where
  | index_out_of_bounds
  | null_dereference
  deriving DecidableEq, Repr

/-- A memory-mapped register access. -/
inductive MmioEvent where
  | readl (addr : Nat)
  | writel (val : Nat) (addr : Nat)
  deriving DecidableEq, Repr

/-- Outcome of a shim call that returns: the status, the 32-bit content of the
caller's `reg_data` buffer afterwards, and the register accesses made. -/
structure RegResult where
  ret : Int
  reg_data : Nat
  io : List MmioEvent
  deriving DecidableEq, Repr

deriving instance DecidableEq for Except

/-- The expression `qca_phy_priv_global[dev_id]->...`: the array is indexed
with `dev_id` unchecked and the pointer found there is dereferenced.  An index
past the array or a NULL cell has no defined behaviour and is reported as a
fault. -/
def deref_priv (st : SsdkState) (dev_id : Nat) : Except Fault QcaPhyPriv :=
  if dev_id < QCA_MAX_PHY_NUM then
    match st.qca_phy_priv_global dev_id with
    | some priv => Except.ok priv
    | none => Except.error Fault.null_dereference
  else Except.error Fault.index_out_of_bounds

/-- `add_qca_phy_dev(priv)`: the `a_uint32_t` result (`-1` is `2 ^ 32 - 1`) and
the globals afterwards.  `priv` is the pointer argument (`none` is NULL). -/
def add_qca_phy_dev (st : SsdkState) (priv : Option QcaPhyPriv) : Nat × SsdkState :=
  if st.m_used_dev_id ≥ QCA_MAX_PHY_NUM then (2 ^ 32 - 1, st)
  else
    let tempid := st.m_used_dev_id
    let st := { st with m_used_dev_id := (st.m_used_dev_id + 1) % 2 ^ 32 }
    (tempid,
      { st with qca_phy_priv_global := Function.update st.qca_phy_priv_global tempid priv })

/-- A sequence of `add_qca_phy_dev` calls, one per argument: the results in
call order and the globals after the last call. -/
def add_qca_phy_devs : SsdkState → List (Option QcaPhyPriv) → List Nat × SsdkState
  | st, [] => ([], st)
  | st, priv :: rest =>
    ((add_qca_phy_dev st priv).1 :: (add_qca_phy_devs (add_qca_phy_dev st priv).2 rest).1,
     (add_qca_phy_devs (add_qca_phy_dev st priv).2 rest).2)

/-- `qca_switch_reg_read(dev_id, reg_addr, reg_data, len)`; `mem` gives the
value `readl` returns at an address. -/
def qca_switch_reg_read (codes : SwCodes) (st : SsdkState) (mem : Nat → Nat)
    (dev_id reg_addr reg_data len : Nat) : Except Fault RegResult :=
  if len ≠ 4 then Except.ok ⟨codes.SW_BAD_LEN, reg_data, []⟩
  else if reg_addr % 4 ≠ 0 then Except.ok ⟨codes.SW_BAD_PARAM, reg_data, []⟩
  else
    match deref_priv st dev_id with
    | Except.error f => Except.error f
    | Except.ok priv =>
      let reg_val := mem (priv.hw_addr + reg_addr)
      Except.ok ⟨0, reg_val, [MmioEvent.readl (priv.hw_addr + reg_addr)]⟩

/-- `qca_switch_reg_write(dev_id, reg_addr, reg_data, len)`. -/
def qca_switch_reg_write (codes : SwCodes) (st : SsdkState)
    (dev_id reg_addr reg_data len : Nat) : Except Fault RegResult :=
  if len ≠ 4 then Except.ok ⟨codes.SW_BAD_LEN, reg_data, []⟩
  else if reg_addr % 4 ≠ 0 then Except.ok ⟨codes.SW_BAD_PARAM, reg_data, []⟩
  else
    match deref_priv st dev_id with
    | Except.error f => Except.error f
    | Except.ok priv =>
      let reg_val := reg_data
      Except.ok ⟨0, reg_data, [MmioEvent.writel reg_val (priv.hw_addr + reg_addr)]⟩

/-- The selection of `hppe_uniphy_base` in the UNIPHY functions (lines 121-129):
`none` stands for the `return SW_BAD_PARAM` branch. -/
def uniphy_base (defs : HppeDefs) (st : SsdkState) (dev_id uniphy_index : Nat) :
    Except Fault (Option Nat) :=
  if defs.SSDK_UNIPHY_INSTANCE0 = uniphy_index then
    (deref_priv st dev_id).map (fun priv => some priv.uniphy_hw_addr)
  else if defs.SSDK_UNIPHY_INSTANCE1 = uniphy_index then
    (deref_priv st dev_id).map (fun priv => some (priv.uniphy_hw_addr + defs.HPPE_UNIPHY_BASE1))
  else if defs.SSDK_UNIPHY_INSTANCE2 = uniphy_index then
    (deref_priv st dev_id).map (fun priv => some (priv.uniphy_hw_addr + defs.HPPE_UNIPHY_BASE2))
  else Except.ok none

/-- The value `reg_addr1 = (reg_addr & 0xffffff) >> 8` written to the indirect
address register. -/
def uniphy_reg_addr1 (reg_addr : Nat) : Nat := (reg_addr &&& 0xffffff) >>> 8

/-- The data offset of an indirect access, in `a_uint32_t` arithmetic:
`(HPPE_UNIPHY_INDIRECT_DATA << 10) | ((reg_addr & HPPE_UNIPHY_INDIRECT_LOW_ADDR) << 2)`. -/
def uniphy_indirect_offset (defs : HppeDefs) (reg_addr : Nat) : Nat :=
  ((defs.HPPE_UNIPHY_INDIRECT_DATA <<< 10) % 2 ^ 32) |||
    (((reg_addr &&& defs.HPPE_UNIPHY_INDIRECT_LOW_ADDR) <<< 2) % 2 ^ 32)

/-- `qca_uniphy_reg_read(dev_id, uniphy_index, reg_addr, reg_data, len)`. -/
def qca_uniphy_reg_read (codes : SwCodes) (defs : HppeDefs) (st : SsdkState)
    (mem : Nat → Nat) (dev_id uniphy_index reg_addr reg_data len : Nat) :
    Except Fault RegResult :=
  if len ≠ 4 then Except.ok ⟨codes.SW_BAD_LEN, reg_data, []⟩
  else
    match uniphy_base defs st dev_id uniphy_index with
    | Except.error f => Except.error f
    | Except.ok none => Except.ok ⟨codes.SW_BAD_PARAM, reg_data, []⟩
    | Except.ok (some base) =>
      if reg_addr > defs.HPPE_UNIPHY_MAX_DIRECT_ACCESS_REG then
        let reg_addr1 := uniphy_reg_addr1 reg_addr
        let reg_addr := uniphy_indirect_offset defs reg_addr
        Except.ok ⟨0, mem (base + reg_addr),
          [MmioEvent.writel reg_addr1 (base + defs.HPPE_UNIPHY_INDIRECT_REG_ADDR),
           MmioEvent.readl (base + reg_addr)]⟩
      else
        Except.ok ⟨0, mem (base + reg_addr), [MmioEvent.readl (base + reg_addr)]⟩

/-- `qca_uniphy_reg_write(dev_id, uniphy_index, reg_addr, reg_data, len)`. -/
def qca_uniphy_reg_write (codes : SwCodes) (defs : HppeDefs) (st : SsdkState)
    (dev_id uniphy_index reg_addr reg_data len : Nat) : Except Fault RegResult :=
  if len ≠ 4 then Except.ok ⟨codes.SW_BAD_LEN, reg_data, []⟩
  else
    match uniphy_base defs st dev_id uniphy_index with
    | Except.error f => Except.error f
    | Except.ok none => Except.ok ⟨codes.SW_BAD_PARAM, reg_data, []⟩
    | Except.ok (some base) =>
      if reg_addr > defs.HPPE_UNIPHY_MAX_DIRECT_ACCESS_REG then
        let reg_addr1 := uniphy_reg_addr1 reg_addr
        let reg_addr := uniphy_indirect_offset defs reg_addr
        Except.ok ⟨0, reg_data,
          [MmioEvent.writel reg_addr1 (base + defs.HPPE_UNIPHY_INDIRECT_REG_ADDR),
           MmioEvent.writel reg_data (base + reg_addr)]⟩
      else
        Except.ok ⟨0, reg_data, [MmioEvent.writel reg_data (base + reg_addr)]⟩

/-- The address resolution the specification gives for a UNIPHY access of
`len = 4` once the instance base is known.  A direct address
(`reg_addr <= HPPE_UNIPHY_MAX_DIRECT_ACCESS_REG`) is accessed at
`base + reg_addr` and no other register is touched.  An indirect address first
has `(reg_addr & 0xffffff) >> 8` written to
`base + HPPE_UNIPHY_INDIRECT_REG_ADDR`, then the access goes to `base` plus
`(HPPE_UNIPHY_INDIRECT_DATA << 10) | ((reg_addr & HPPE_UNIPHY_INDIRECT_LOW_ADDR) << 2)`,
computed in `a_uint32_t`.  The read returns the value read, the write writes
the caller's value; both return 0. -/
def uniphy_resolved_at (codes : SwCodes) (defs : HppeDefs) (st : SsdkState)
    (mem : Nat → Nat) (dev_id uniphy_index reg_addr reg_data base : Nat) : Prop :=
  (reg_addr ≤ defs.HPPE_UNIPHY_MAX_DIRECT_ACCESS_REG →
    qca_uniphy_reg_read codes defs st mem dev_id uniphy_index reg_addr reg_data 4
      = Except.ok ⟨0, mem (base + reg_addr), [MmioEvent.readl (base + reg_addr)]⟩ ∧
    qca_uniphy_reg_write codes defs st dev_id uniphy_index reg_addr reg_data 4
      = Except.ok ⟨0, reg_data, [MmioEvent.writel reg_data (base + reg_addr)]⟩) ∧
  (reg_addr > defs.HPPE_UNIPHY_MAX_DIRECT_ACCESS_REG →
    qca_uniphy_reg_read codes defs st mem dev_id uniphy_index reg_addr reg_data 4
      = Except.ok ⟨0,
          mem (base + (((defs.HPPE_UNIPHY_INDIRECT_DATA <<< 10) % 2 ^ 32) |||
            (((reg_addr &&& defs.HPPE_UNIPHY_INDIRECT_LOW_ADDR) <<< 2) % 2 ^ 32))),
          [MmioEvent.writel ((reg_addr &&& 0xffffff) >>> 8)
             (base + defs.HPPE_UNIPHY_INDIRECT_REG_ADDR),
           MmioEvent.readl (base + (((defs.HPPE_UNIPHY_INDIRECT_DATA <<< 10) % 2 ^ 32) |||
             (((reg_addr &&& defs.HPPE_UNIPHY_INDIRECT_LOW_ADDR) <<< 2) % 2 ^ 32)))]⟩ ∧
    qca_uniphy_reg_write codes defs st dev_id uniphy_index reg_addr reg_data 4
      = Except.ok ⟨0, reg_data,
          [MmioEvent.writel ((reg_addr &&& 0xffffff) >>> 8)
             (base + defs.HPPE_UNIPHY_INDIRECT_REG_ADDR),
           MmioEvent.writel reg_data
             (base + (((defs.HPPE_UNIPHY_INDIRECT_DATA <<< 10) % 2 ^ 32) |||
               (((reg_addr &&& defs.HPPE_UNIPHY_INDIRECT_LOW_ADDR) <<< 2) % 2 ^ 32)))]⟩)

end Ssdk

namespace NssDp

/-! ## ethtool pause parameters: `nss_dp_ethtools.c` -/

/-- Linux `FLOW_CTRL_TX` (include/linux/mii.h). -/
def FLOW_CTRL_TX : Nat := 1

/-- Linux `FLOW_CTRL_RX` (include/linux/mii.h). -/
def FLOW_CTRL_RX : Nat := 2

/-- Linux `AUTONEG_ENABLE` (include/uapi/linux/ethtool.h). -/
def AUTONEG_ENABLE : Nat := 1

/-- Linux `ETHTOOL_LINK_MODE_Pause_BIT`. -/
def ETHTOOL_LINK_MODE_Pause_BIT : Nat := 13

/-- Linux `ETHTOOL_LINK_MODE_Asym_Pause_BIT`. -/
def ETHTOOL_LINK_MODE_Asym_Pause_BIT : Nat := 14

/-- Linux `struct ethtool_pauseparam`. -/
structure EthtoolPauseparam where
  cmd : Nat
  autoneg : Nat
  rx_pause : Nat
  tx_pause : Nat
  deriving DecidableEq, Repr

/-- The `advertising` link-mode bitmap of `struct phy_device`, as a number. -/
structure PhyDevice where
  advertising : Nat
  deriving DecidableEq, Repr

/-- The fields of `struct nss_dp_dev` (the private data of the net device)
used by the pause operations; `phydev = none` is a NULL pointer. -/
structure NssDpDev where
  pause : Nat
  phydev : Option PhyDevice
  deriving DecidableEq, Repr

/-- Linux `linkmode_clear_bit(nr, addr)`. -/
def linkmode_clear_bit (nr : Nat) (bits : Nat) : Nat :=
  bits ^^^ (bits &&& (1 <<< nr))

/-- Linux `linkmode_set_bit(nr, addr)`. -/
def linkmode_set_bit (nr : Nat) (bits : Nat) : Nat :=
  bits ||| (1 <<< nr)

/-- `nss_dp_get_pauseparam(netdev, pause)`: fills the caller's structure. -/
def nss_dp_get_pauseparam (dp_priv : NssDpDev) (pause : EthtoolPauseparam) :
    EthtoolPauseparam :=
  { pause with
    rx_pause := if dp_priv.pause &&& FLOW_CTRL_RX ≠ 0 then 1 else 0
    tx_pause := if dp_priv.pause &&& FLOW_CTRL_TX ≠ 0 then 1 else 0
    autoneg := AUTONEG_ENABLE }

/-- `nss_dp_set_pauseparam(netdev, pause)`, in the branch compiled for kernels
after 5.4.0 (link-mode bitmaps).  `genphy_config_aneg` is the kernel helper
applied to the PHY at the end; its status is ignored by the source. -/
def nss_dp_set_pauseparam (genphy_config_aneg : PhyDevice → PhyDevice)
    (dp_priv : NssDpDev) (pause : EthtoolPauseparam) : Int × NssDpDev :=
  let dp_priv := { dp_priv with pause := 0 }
  let dp_priv := if pause.rx_pause ≠ 0 then
    { dp_priv with pause := dp_priv.pause ||| FLOW_CTRL_RX } else dp_priv
  let dp_priv := if pause.tx_pause ≠ 0 then
    { dp_priv with pause := dp_priv.pause ||| FLOW_CTRL_TX } else dp_priv
  match dp_priv.phydev with
  | none => (0, dp_priv)
  | some phydev =>
    let adv := linkmode_clear_bit ETHTOOL_LINK_MODE_Pause_BIT phydev.advertising
    let adv := linkmode_clear_bit ETHTOOL_LINK_MODE_Asym_Pause_BIT adv
    let adv := if pause.rx_pause ≠ 0 then
      linkmode_set_bit ETHTOOL_LINK_MODE_Asym_Pause_BIT
        (linkmode_set_bit ETHTOOL_LINK_MODE_Pause_BIT adv)
      else adv
    let adv := if pause.tx_pause ≠ 0 then
      linkmode_set_bit ETHTOOL_LINK_MODE_Asym_Pause_BIT adv else adv
    let phydev := genphy_config_aneg { phydev with advertising := adv }
    (0, { dp_priv with phydev := some phydev })

end NssDp

/-! ## Concrete configurations used in the examples -/

namespace Edma

/-- Return codes numbered as consecutive enumerators. -/
def sample_codes : EdmaTxCodes := { EDMA_TX_OK := 0, EDMA_TX_DESC := 1 }

/-- A transmit environment in which `pskb_expand_head` succeeds and
`edma_ring_xmit` returns `xmit_ret`. -/
def sample_xmit_env (xmit_ret : Int) : XmitEnv :=
  { pskb_expand_head := fun skb nhead ntail =>
      (0, { skb with cloned := false, headroom := skb.headroom + nhead,
                     tailroom := skb.tailroom + ntail })
    edma_ring_xmit := fun _ _ _ => xmit_ret }

/-- A transmit environment in which `pskb_expand_head` fails with `-ENOMEM`,
leaving the skb as it was, and `edma_ring_xmit` returns `xmit_ret`. -/
def sample_xmit_env_nomem (xmit_ret : Int) : XmitEnv :=
  { pskb_expand_head := fun skb _ _ => (-12, skb)
    edma_ring_xmit := fun _ _ _ => xmit_ret }

/-- A net device needing 32 bytes of headroom, with a running Tx queue. -/
def sample_netdev : NetDevice :=
  { needed_headroom := 32, needed_tailroom := 0, tx_dropped := 5, queue_stopped := false }

/-- A linear, unshared 64-byte skb with 64 bytes of headroom. -/
def sample_skb : SkBuff :=
  { len := 64, data_len := 0, queue_mapping := 0, cloned := false,
    headroom := 64, tailroom := 16 }

/-- A ring array whose first `rings` cells carry the ids `start`, `start + 1`,
... and whose other cells are zero, as in a zero-initialised global. -/
def ring_array (start rings : Nat) : Nat → EdmaRing :=
  fun i => if i < rings then ⟨start + i⟩ else ⟨0⟩

/-- An `edma_hw` for a platform device at address `0x1000` with the given first
id and number of rings of each type, interrupt masks 1 to 4, no IRQ numbers
read yet, an empty net-device table and no open interface. -/
def sample_hw (txdesc_start txdesc_rings txcmpl_start txcmpl_rings
    rxfill_start rxfill_rings rxdesc_start rxdesc_rings napi_added : Nat) : EdmaHw :=
  { pdev := 0x1000
    txdesc_rings := txdesc_rings
    txcmpl_rings := txcmpl_rings
    rxfill_rings := rxfill_rings
    rxdesc_rings := rxdesc_rings
    txdesc_ring_start := txdesc_start
    txdesc_ring_end := txdesc_start + txdesc_rings
    txcmpl_ring_start := txcmpl_start
    txcmpl_ring_end := txcmpl_start + txcmpl_rings
    rxfill_ring_start := rxfill_start
    rxfill_ring_end := rxfill_start + rxfill_rings
    rxdesc_ring_start := rxdesc_start
    rxdesc_ring_end := rxdesc_start + rxdesc_rings
    txcmpl_ring := ring_array txcmpl_start txcmpl_rings
    rxfill_ring := ring_array rxfill_start rxfill_rings
    rxdesc_ring := ring_array rxdesc_start rxdesc_rings
    txcmpl_intr := fun _ => 0
    rxfill_intr := fun _ => 0
    rxdesc_intr := fun _ => 0
    misc_intr := 0
    txcmpl_intr_mask := 1
    rxfill_intr_mask := 2
    rxdesc_intr_mask := 3
    misc_intr_mask := 4
    napi_added := napi_added
    netdev_arr := fun _ => 0
    active := 0 }

/-- A kernel with no handler installed, the register region free, NAPI
disabled, no reference or clock held and an empty trace. -/
def kernel0 : Kernel :=
  { irq_actions := [], mem_region_held := false, reg_mapped := false,
    napi_enabled := false, node_refs := 0, device_refs := 0, clock_rates := [],
    clocks_enabled := [], trace := [] }

/-- Resource entry `n` is IRQ `100 + n`; `request_irq` fails with `-EBUSY` on
the IRQ numbers listed in `failing` and succeeds on all others. -/
def sample_irq_env (failing : List Int) (dev_offset : Nat) : IrqEnv :=
  { platform_get_irq := fun n => 100 + (n : Int)
    request_irq_err := fun irq => if irq ∈ failing then -16 else 0
    dev_offset := dev_offset }

/-- Ports 1 to 6, as on a six-port switch. -/
def sample_gmacs : EdmaGmacDefs := { EDMA_START_GMACS := 1, EDMA_MAX_GMACS := 6 }

/-- Status codes 0 for success and -1 for failure. -/
def sample_dp_codes : NssDpCodes := { NSS_DP_SUCCESS := 0, NSS_DP_FAILURE := -1 }

/-- Register values: all three macros expand to 0. -/
def sample_reg_defs : EdmaRegDefs :=
  { EDMA_RING_DISABLE := 0, EDMA_MASK_INT_CLEAR := 0, EDMA_DISABLE := 0 }

/-- A device tree that answers every lookup of `edma_of_get_pdata`: every fixed
clock is present and there is one ring of each type. -/
def sample_dt : EdmaDt :=
  { device_node := 0x2000, pdev := 0x1000
    clocks := ssdk_ppe_fixed_clocks.map Prod.fst, reg_resource_ok := true
    txdesc_ring_start := some 23, txdesc_rings := some 1
    txcmpl_ring_start := some 7, txcmpl_rings := some 1
    rxfill_ring_start := some 7, rxfill_rings := some 1
    rxdesc_ring_start := some 15, rxdesc_rings := some 1 }

/-- An initialisation environment over `sample_dt` in which the region request,
the mapping and `edma_hw_init` succeed or fail as told (`hw_init_ret` is the
status of `edma_hw_init`, which leaves `edma_hw` as it is). -/
def sample_init_env (region_ok remap_ok : Bool) (hw_init_ret : Int) : InitEnv :=
  { dt := sample_dt
    request_mem_region_ok := region_ok
    ioremap_ok := remap_ok
    edma_hw_init := fun hw => (hw_init_ret, hw) }

end Edma

namespace Ssdk

/-- Error codes numbered as in the SSDK enumeration. -/
def sample_sw_codes : SwCodes := { SW_BAD_LEN := -6, SW_BAD_PARAM := -4 }

/-- UNIPHY constants of an HPPE platform. -/
def sample_hppe : HppeDefs :=
  { SSDK_UNIPHY_INSTANCE0 := 0
    SSDK_UNIPHY_INSTANCE1 := 1
    SSDK_UNIPHY_INSTANCE2 := 2
    HPPE_UNIPHY_BASE1 := 0x10000
    HPPE_UNIPHY_BASE2 := 0x20000
    HPPE_UNIPHY_MAX_DIRECT_ACCESS_REG := 0x7fff
    HPPE_UNIPHY_INDIRECT_REG_ADDR := 0x83fc
    HPPE_UNIPHY_INDIRECT_LOW_ADDR := 0xff
    HPPE_UNIPHY_INDIRECT_DATA := 0x20 }

/-- The private data of the single registered switch device. -/
def sample_priv : QcaPhyPriv :=
  { hw_addr := 0x3a000000, psgmii_hw_addr := 0x98000, uniphy_hw_addr := 0x7a00000 }

/-- The globals after one call of `add_qca_phy_dev`: cell 0 is set, the other
cells are still NULL. -/
def sample_ssdk : SsdkState :=
  { qca_phy_priv_global := fun i => if i = 0 then some sample_priv else none
    m_used_dev_id := 1 }

/-- Register contents: every register reads as its own address plus one. -/
def sample_mem : Nat → Nat := fun addr => addr + 1

end Ssdk

/-! ## Theorems -/

namespace Edma

/-- C1: for a packet that passes the length, linearity and expansion checks,
when `edma_ring_xmit` returns `EDMA_TX_DESC` (a code distinct from
`EDMA_TX_OK`) `edma_if_xmit` stops the Tx queue and returns `NETDEV_TX_BUSY`
without freeing the skb or touching `tx_dropped`; when it returns `EDMA_TX_OK`
the result is `NETDEV_TX_OK` with the queue state, the skb and `tx_dropped`
left alone. -/
theorem edma_if_xmit_backpressure (codes : EdmaTxCodes) (env : XmitEnv)
    (txdesc_rings : Nat) (netdev : NetDevice) (skb : SkBuff)
    (hdistinct : codes.EDMA_TX_DESC ≠ codes.EDMA_TX_OK)
    (hpass : xmit_passes_checks env netdev skb) :
    (env.edma_ring_xmit netdev (xmit_skb env netdev skb)
        (xmit_tx_ring txdesc_rings skb.queue_mapping) = codes.EDMA_TX_DESC →
      (edma_if_xmit codes env txdesc_rings netdev skb).ret = NETDEV_TX_BUSY ∧
      (edma_if_xmit codes env txdesc_rings netdev skb).netdev.queue_stopped = true ∧
      XmitEvent.netif_stop_queue ∈ (edma_if_xmit codes env txdesc_rings netdev skb).events ∧
      (edma_if_xmit codes env txdesc_rings netdev skb).skb_freed = false ∧
      XmitEvent.dev_kfree_skb_any ∉ (edma_if_xmit codes env txdesc_rings netdev skb).events ∧
      (edma_if_xmit codes env txdesc_rings netdev skb).netdev.tx_dropped = netdev.tx_dropped) ∧
    (env.edma_ring_xmit netdev (xmit_skb env netdev skb)
        (xmit_tx_ring txdesc_rings skb.queue_mapping) = codes.EDMA_TX_OK →
      (edma_if_xmit codes env txdesc_rings netdev skb).ret = NETDEV_TX_OK ∧
      (edma_if_xmit codes env txdesc_rings netdev skb).netdev = netdev ∧
      XmitEvent.netif_stop_queue ∉ (edma_if_xmit codes env txdesc_rings netdev skb).events ∧
      (edma_if_xmit codes env txdesc_rings netdev skb).skb_freed = false ∧
      XmitEvent.dev_kfree_skb_any ∉ (edma_if_xmit codes env txdesc_rings netdev skb).events) := by
  obtain ⟨hlen, hlin, hexp⟩ := hpass
  by_cases hx : xmit_expand_skb netdev skb = true
  · have h0 := hexp hx
    constructor
    · intro hret
      simp only [xmit_skb, hx, if_true] at hret
      simp [edma_if_xmit, hlen, hlin, hx, h0, xmit_send, hret, hdistinct]
    · intro hret
      simp only [xmit_skb, hx, if_true] at hret
      simp [edma_if_xmit, hlen, hlin, hx, h0, xmit_send, hret]
  · constructor
    · intro hret
      simp [xmit_skb, hx] at hret
      simp [edma_if_xmit, hlen, hlin, hx, xmit_send, hret, hdistinct]
    · intro hret
      simp [xmit_skb, hx] at hret
      simp [edma_if_xmit, hlen, hlin, hx, xmit_send, hret]

/-- Witness for C1: a 64-byte linear skb on a device whose ring is out of
descriptors is answered with `NETDEV_TX_BUSY`. -/
theorem edma_if_xmit_backpressure_witness :
    sample_codes.EDMA_TX_DESC ≠ sample_codes.EDMA_TX_OK ∧
    xmit_passes_checks (sample_xmit_env 1) sample_netdev sample_skb ∧
    (edma_if_xmit sample_codes (sample_xmit_env 1) 1 sample_netdev sample_skb).ret
      = NETDEV_TX_BUSY :=
  ⟨by decide, by unfold xmit_passes_checks; decide,
    ((edma_if_xmit_backpressure sample_codes (sample_xmit_env 1) 1 sample_netdev sample_skb
      (by decide) (by unfold xmit_passes_checks; decide)).1 rfl).1⟩

/-- C2 (evaluation at the failing input): with two TXCMPL rings, when
`request_irq` fails for the second TXCMPL interrupt, `edma_irq_init` returns -1
straight from the request loop: it has called `request_irq` twice and
`free_irq` never, and the handler of the first TXCMPL interrupt (IRQ 100) is
still installed although none was installed before the call.  No `free_irq`
call is made on this path, so the leak does not depend on the cookie passed to
`free_irq`. -/
theorem edma_irq_init_txcmpl_failure_leaks :
    (edma_irq_init (sample_irq_env [101] 16) (sample_hw 23 1 7 2 7 1 15 1 0) kernel0).1 = -1 ∧
    (edma_irq_init (sample_irq_env [101] 16) (sample_hw 23 1 7 2 7 1 15 1 0) kernel0).2.2.trace
      = [KEvent.request_irq 100 IrqHandler.edma_handle_irq "edma_txcmpl" 0x1000,
         KEvent.request_irq 101 IrqHandler.edma_handle_irq "edma_txcmpl" 0x1000] ∧
    (edma_irq_init (sample_irq_env [101] 16) (sample_hw 23 1 7 2 7 1 15 1 0) kernel0).2.2.irq_actions
      = [⟨100, IrqHandler.edma_handle_irq, "edma_txcmpl", 0x1000⟩] ∧
    kernel0.irq_actions = [] := by
  decide

/-- C3 (evaluation at the failing input): with `struct device dev` at offset 16
of `struct platform_device`, `request_irq` is given the cookie `0x1000`
(`edma_hw.pdev`) and `free_irq` the cookie `0x1010` (`&edma_hw.pdev->dev`).
After a successful `edma_irq_init`, `edma_cleanup` therefore removes none of
the five handlers; and when the misc request fails, the failure path of
`edma_irq_init` leaves the four ring handlers installed. -/
theorem edma_free_irq_cookie_mismatch :
    request_dev_id (sample_hw 23 1 7 2 7 1 15 1 0) = 0x1000 ∧
    free_dev_id (sample_irq_env [] 16) (sample_hw 23 1 7 2 7 1 15 1 0) = 0x1010 ∧
    (edma_irq_init (sample_irq_env [] 16) (sample_hw 23 1 7 2 7 1 15 1 0) kernel0).1 = 0 ∧
    (edma_irq_init (sample_irq_env [] 16) (sample_hw 23 1 7 2 7 1 15 1 0) kernel0).2.2.irq_actions
      = [⟨100, IrqHandler.edma_handle_irq, "edma_txcmpl", 0x1000⟩,
         ⟨101, IrqHandler.edma_handle_irq, "edma_txcmpl", 0x1000⟩,
         ⟨102, IrqHandler.edma_handle_irq, "edma_rxfill", 0x1000⟩,
         ⟨103, IrqHandler.edma_handle_irq, "edma_rxdesc", 0x1000⟩,
         ⟨104, IrqHandler.edma_handle_misc_irq, "edma_misc", 0x1000⟩] ∧
    (edma_cleanup sample_reg_defs (sample_irq_env [] 16)
        { (edma_irq_init (sample_irq_env [] 16)
            (sample_hw 23 1 7 2 7 1 15 1 0) kernel0).2.1 with napi_added := 1 }
        (edma_irq_init (sample_irq_env [] 16)
            (sample_hw 23 1 7 2 7 1 15 1 0) kernel0).2.2).irq_actions
      = (edma_irq_init (sample_irq_env [] 16)
            (sample_hw 23 1 7 2 7 1 15 1 0) kernel0).2.2.irq_actions ∧
    KEvent.free_irq 100 0x1010 ∈
      (edma_cleanup sample_reg_defs (sample_irq_env [] 16)
        { (edma_irq_init (sample_irq_env [] 16)
            (sample_hw 23 1 7 2 7 1 15 1 0) kernel0).2.1 with napi_added := 1 }
        (edma_irq_init (sample_irq_env [] 16)
            (sample_hw 23 1 7 2 7 1 15 1 0) kernel0).2.2).trace ∧
    (edma_irq_init (sample_irq_env [104] 16) (sample_hw 23 1 7 2 7 1 15 1 0) kernel0).1 = -1 ∧
    KEvent.free_irq 100 0x1010 ∈
      (edma_irq_init (sample_irq_env [104] 16)
        (sample_hw 23 1 7 2 7 1 15 1 0) kernel0).2.2.trace ∧
    (edma_irq_init (sample_irq_env [104] 16)
        (sample_hw 23 1 7 2 7 1 15 1 0) kernel0).2.2.irq_actions
      = [⟨100, IrqHandler.edma_handle_irq, "edma_txcmpl", 0x1000⟩,
         ⟨101, IrqHandler.edma_handle_irq, "edma_txcmpl", 0x1000⟩,
         ⟨102, IrqHandler.edma_handle_irq, "edma_rxfill", 0x1000⟩,
         ⟨103, IrqHandler.edma_handle_irq, "edma_rxdesc", 0x1000⟩] := by
  decide

/-- C4 (evaluation at the failing input): with one RXFILL ring of id 7,
a successful `edma_irq_init` writes `rxfill_intr_mask` to
`EDMA_REG_RXFILL_INT_MASK(7)`, and the register writes of `edma_cleanup` are
the three ring disables, the clears of the RXDESC, TX and MISC masks and the
port disable: `EDMA_REG_RXFILL_INT_MASK(7)` is not written. -/
theorem edma_cleanup_leaves_rxfill_mask :
    (edma_irq_init (sample_irq_env [] 16) (sample_hw 23 1 7 1 7 1 15 1 0) kernel0).1 = 0 ∧
    KEvent.reg_write (EdmaReg.RXFILL_INT_MASK 7) 2 ∈
      (edma_irq_init (sample_irq_env [] 16) (sample_hw 23 1 7 1 7 1 15 1 0) kernel0).2.2.trace ∧
    (edma_cleanup sample_reg_defs (sample_irq_env [] 16)
        (sample_hw 23 1 7 1 7 1 15 1 0) kernel0).trace
      = [KEvent.reg_write (EdmaReg.RXDESC_CTRL 15) 0,
         KEvent.reg_write (EdmaReg.TXDESC_CTRL 0) 0,
         KEvent.reg_write (EdmaReg.RXFILL_RING_EN 7) 0,
         KEvent.reg_write (EdmaReg.RXDESC_INT_MASK 15) 0,
         KEvent.reg_write (EdmaReg.TX_INT_MASK 7) 0,
         KEvent.reg_write EdmaReg.MISC_INT_MASK 0,
         KEvent.reg_write EdmaReg.PORT_CTRL 0,
         KEvent.edma_cleanup_rings, KEvent.iounmap, KEvent.release_mem_region] ∧
    KEvent.reg_write (EdmaReg.RXFILL_INT_MASK 7) sample_reg_defs.EDMA_MASK_INT_CLEAR ∉
      (edma_cleanup sample_reg_defs (sample_irq_env [] 16)
        (sample_hw 23 1 7 1 7 1 15 1 0) kernel0).trace := by
  decide

/-- C5 (evaluation at the failing input): with the TXDESC range `[0, 1)` and one
TXCMPL ring of id 7, the ring-disable loops of `edma_cleanup` write
`EDMA_REG_TXDESC_CTRL(7)`, the register of `edma_hw.txcmpl_ring[0].id`, and never
`EDMA_REG_TXDESC_CTRL(0)`; the RXDESC and RXFILL loops write the registers of
their own ranges. -/
theorem edma_cleanup_disables_wrong_txdesc :
    (cleanup_disable_rings sample_reg_defs (sample_hw 0 1 7 1 7 1 15 1 0) kernel0).trace
      = [KEvent.reg_write (EdmaReg.RXDESC_CTRL 15) sample_reg_defs.EDMA_RING_DISABLE,
         KEvent.reg_write (EdmaReg.TXDESC_CTRL 7) sample_reg_defs.EDMA_RING_DISABLE,
         KEvent.reg_write (EdmaReg.RXFILL_RING_EN 7) sample_reg_defs.EDMA_RING_DISABLE] ∧
    (sample_hw 0 1 7 1 7 1 15 1 0).txdesc_ring_start = 0 ∧
    (sample_hw 0 1 7 1 7 1 15 1 0).txdesc_ring_end = 1 ∧
    KEvent.reg_write (EdmaReg.TXDESC_CTRL 0) sample_reg_defs.EDMA_RING_DISABLE ∉
      (edma_cleanup sample_reg_defs (sample_irq_env [] 16)
        (sample_hw 0 1 7 1 7 1 15 1 0) kernel0).trace ∧
    KEvent.reg_write (EdmaReg.TXDESC_CTRL 7) sample_reg_defs.EDMA_RING_DISABLE ∈
      (edma_cleanup sample_reg_defs (sample_irq_env [] 16)
        (sample_hw 0 1 7 1 7 1 15 1 0) kernel0).trace := by
  decide

end Edma

namespace Ssdk

/-- C7 (counterexample): for `dev_id = 9`, `len = 4` and the aligned address 0,
neither function performs a register access and returns 0: the table is
indexed past its four cells. -/
theorem qca_switch_reg_unchecked_dev_id :
    qca_switch_reg_read sample_sw_codes sample_ssdk sample_mem 9 0 0 4
      = Except.error Fault.index_out_of_bounds ∧
    qca_switch_reg_write sample_sw_codes sample_ssdk 9 0 0 4
      = Except.error Fault.index_out_of_bounds := by
  decide

/-- C7 (amended): for every `dev_id`, `reg_addr` and `len`, both functions
return `SW_BAD_LEN` when `len` is not 4, and otherwise `SW_BAD_PARAM` when
`reg_addr` is not a multiple of 4, in both cases without any register access
and with the buffer unchanged; otherwise, when the table cell of `dev_id` holds
a device, they perform exactly one access at `hw_addr + reg_addr` and return 0
(the read stores the value read in the buffer, the write writes the buffer). -/
theorem qca_switch_reg_checks (codes : SwCodes) (st : SsdkState) (mem : Nat → Nat)
    (dev_id reg_addr reg_data len : Nat) :
    (len ≠ 4 →
      qca_switch_reg_read codes st mem dev_id reg_addr reg_data len
        = Except.ok ⟨codes.SW_BAD_LEN, reg_data, []⟩ ∧
      qca_switch_reg_write codes st dev_id reg_addr reg_data len
        = Except.ok ⟨codes.SW_BAD_LEN, reg_data, []⟩) ∧
    (len = 4 → reg_addr % 4 ≠ 0 →
      qca_switch_reg_read codes st mem dev_id reg_addr reg_data len
        = Except.ok ⟨codes.SW_BAD_PARAM, reg_data, []⟩ ∧
      qca_switch_reg_write codes st dev_id reg_addr reg_data len
        = Except.ok ⟨codes.SW_BAD_PARAM, reg_data, []⟩) ∧
    (len = 4 → reg_addr % 4 = 0 → ∀ priv : QcaPhyPriv,
      dev_id < QCA_MAX_PHY_NUM → st.qca_phy_priv_global dev_id = some priv →
      qca_switch_reg_read codes st mem dev_id reg_addr reg_data len
        = Except.ok ⟨0, mem (priv.hw_addr + reg_addr),
            [MmioEvent.readl (priv.hw_addr + reg_addr)]⟩ ∧
      qca_switch_reg_write codes st dev_id reg_addr reg_data len
        = Except.ok ⟨0, reg_data, [MmioEvent.writel reg_data (priv.hw_addr + reg_addr)]⟩) := by
  refine ⟨?_, ?_, ?_⟩
  · intro hlen
    simp [qca_switch_reg_read, qca_switch_reg_write, hlen]
  · intro hlen halign
    simp [qca_switch_reg_read, qca_switch_reg_write, hlen, halign]
  · intro hlen halign priv hdev hset
    simp [qca_switch_reg_read, qca_switch_reg_write, hlen, halign, deref_priv, hdev, hset]

/-- Witness for C7: the registered device 0, register offset 8. -/
theorem qca_switch_reg_checks_witness :
    qca_switch_reg_read sample_sw_codes sample_ssdk sample_mem 0 8 0 4
      = Except.ok ⟨0, 0x3a000009, [MmioEvent.readl 0x3a000008]⟩ ∧
    qca_switch_reg_write sample_sw_codes sample_ssdk 0 8 77 4
      = Except.ok ⟨0, 77, [MmioEvent.writel 77 0x3a000008]⟩ ∧
    qca_switch_reg_read sample_sw_codes sample_ssdk sample_mem 0 6 55 4
      = Except.ok ⟨sample_sw_codes.SW_BAD_PARAM, 55, []⟩ ∧
    qca_switch_reg_read sample_sw_codes sample_ssdk sample_mem 0 8 55 2
      = Except.ok ⟨sample_sw_codes.SW_BAD_LEN, 55, []⟩ :=
  ⟨((qca_switch_reg_checks sample_sw_codes sample_ssdk sample_mem 0 8 0 4).2.2
      rfl (by decide) sample_priv (by decide) rfl).1,
   ((qca_switch_reg_checks sample_sw_codes sample_ssdk sample_mem 0 8 77 4).2.2
      rfl (by decide) sample_priv (by decide) rfl).2,
   ((qca_switch_reg_checks sample_sw_codes sample_ssdk sample_mem 0 6 55 4).2.1
      rfl (by decide)).1,
   ((qca_switch_reg_checks sample_sw_codes sample_ssdk sample_mem 0 8 55 2).1
      (by decide)).1⟩

/-- C9 (evaluation at the failing inputs): with `dev_id = 4 = QCA_MAX_PHY_NUM`
and otherwise valid arguments, each of the four functions indexes
`qca_phy_priv_global` past its last cell; with `dev_id = 1`, a cell that
`add_qca_phy_dev` has not stored yet, each dereferences the NULL pointer found
there.  None returns an error code. -/
theorem qca_reg_access_unchecked_dev_id :
    qca_switch_reg_read sample_sw_codes sample_ssdk sample_mem QCA_MAX_PHY_NUM 0 0 4
      = Except.error Fault.index_out_of_bounds ∧
    qca_switch_reg_write sample_sw_codes sample_ssdk QCA_MAX_PHY_NUM 0 0 4
      = Except.error Fault.index_out_of_bounds ∧
    qca_uniphy_reg_read sample_sw_codes sample_hppe sample_ssdk sample_mem QCA_MAX_PHY_NUM
        sample_hppe.SSDK_UNIPHY_INSTANCE0 0 0 4
      = Except.error Fault.index_out_of_bounds ∧
    qca_uniphy_reg_write sample_sw_codes sample_hppe sample_ssdk QCA_MAX_PHY_NUM
        sample_hppe.SSDK_UNIPHY_INSTANCE0 0 0 4
      = Except.error Fault.index_out_of_bounds ∧
    qca_switch_reg_read sample_sw_codes sample_ssdk sample_mem 1 0 0 4
      = Except.error Fault.null_dereference ∧
    qca_switch_reg_write sample_sw_codes sample_ssdk 1 0 0 4
      = Except.error Fault.null_dereference ∧
    qca_uniphy_reg_read sample_sw_codes sample_hppe sample_ssdk sample_mem 1
        sample_hppe.SSDK_UNIPHY_INSTANCE0 0 0 4
      = Except.error Fault.null_dereference ∧
    qca_uniphy_reg_write sample_sw_codes sample_hppe sample_ssdk 1
        sample_hppe.SSDK_UNIPHY_INSTANCE0 0 0 4
      = Except.error Fault.null_dereference := by
  decide

end Ssdk

namespace NssDp

/-- C10: for every device (with or without a PHY), every requested setting
`p` and every structure `q` handed to the getter, `nss_dp_set_pauseparam`
returns 0 and a following `nss_dp_get_pauseparam` reports `rx_pause = 1`
exactly when `p.rx_pause` is non-zero (else 0), `tx_pause = 1` exactly when
`p.tx_pause` is non-zero (else 0), and `autoneg = AUTONEG_ENABLE`. -/
theorem nss_dp_pauseparam_round_trip (genphy_config_aneg : PhyDevice → PhyDevice)
    (dp_priv : NssDpDev) (p q : EthtoolPauseparam) :
    (nss_dp_set_pauseparam genphy_config_aneg dp_priv p).1 = 0 ∧
    (nss_dp_get_pauseparam (nss_dp_set_pauseparam genphy_config_aneg dp_priv p).2 q).rx_pause
      = (if p.rx_pause ≠ 0 then 1 else 0) ∧
    (nss_dp_get_pauseparam (nss_dp_set_pauseparam genphy_config_aneg dp_priv p).2 q).tx_pause
      = (if p.tx_pause ≠ 0 then 1 else 0) ∧
    (nss_dp_get_pauseparam (nss_dp_set_pauseparam genphy_config_aneg dp_priv p).2 q).autoneg
      = AUTONEG_ENABLE := by
  rcases hphy : dp_priv.phydev with _ | phydev <;>
    by_cases hrx : p.rx_pause = 0 <;> by_cases htx : p.tx_pause = 0 <;>
    simp [nss_dp_set_pauseparam, nss_dp_get_pauseparam, hphy, hrx, htx,
      FLOW_CTRL_RX, FLOW_CTRL_TX]

end NssDp

namespace Edma

/-- The lookup loop returns -1 when no visited cell holds the device. -/
theorem port_num_loop_absent (arr : Nat → Nat) (netdev : Nat) (is : List Nat)
    (h : ∀ i ∈ is, arr i ≠ netdev) : port_num_loop arr netdev is = -1 := by
  induction is with
  | nil => rfl
  | cons i rest ih =>
    have hi : arr i ≠ netdev := h i (List.mem_cons_self _ _)
    have hrest : ∀ j ∈ rest, arr j ≠ netdev := fun j hj => h j (List.mem_cons_of_mem _ hj)
    simp [port_num_loop, hi, ih hrest]

/-- The lookup loop over `s, s+1, ...` returns `m + 1` for the first cell `m`
holding the device. -/
theorem port_num_loop_first (arr : Nat → Nat) (netdev m : Nat) :
    ∀ (n s : Nat), s ≤ m → m < s + n → arr m = netdev →
      (∀ j, s ≤ j → j < m → arr j ≠ netdev) →
      port_num_loop arr netdev (List.range' s n) = (m : Int) + 1 := by
  intro n
  induction n with
  | zero => intro s h1 h2; omega
  | succ n ih =>
    intro s h1 h2 hm hbefore
    rw [List.range'_succ]
    by_cases hs : s = m
    · subst hs
      simp [port_num_loop, hm]
    · have hne : arr s ≠ netdev := hbefore s (le_refl _) (by omega)
      simp only [port_num_loop, hne, if_false]
      exact ih (s + 1) (by omega) (by omega) hm (fun j hj1 hj2 => hbefore j (by omega) hj2)

/-- The lookup loop over `s, ..., s+n-1` returns -1 or a value in `[s+1, s+n]`. -/
theorem port_num_loop_range (arr : Nat → Nat) (netdev : Nat) :
    ∀ (n s : Nat), port_num_loop arr netdev (List.range' s n) = -1 ∨
      ((s : Int) + 1 ≤ port_num_loop arr netdev (List.range' s n) ∧
        port_num_loop arr netdev (List.range' s n) ≤ (s : Int) + n) := by
  intro n
  induction n with
  | zero => intro s; left; rfl
  | succ n ih =>
    intro s
    rw [List.range'_succ]
    by_cases hs : arr s = netdev
    · right
      simp only [port_num_loop, hs, if_true]
      push_cast
      omega
    · simp only [port_num_loop, hs, if_false]
      rcases ih (s + 1) with h | ⟨h1, h2⟩
      · left; exact h
      · right
        push_cast at h1 h2 ⊢
        omega

/-- `edma_irq_init` does not touch the net-device table. -/
theorem edma_irq_init_netdev_arr (env : IrqEnv) (hw : EdmaHw) (k : Kernel) :
    (edma_irq_init env hw k).2.1.netdev_arr = hw.netdev_arr := by
  simp only [edma_irq_init]
  split
  · rfl
  · split
    · rfl
    · split
      · rfl
      · rfl


/-- A registration that returns 0 has stored the device in cell `macid - 1`
(as a `uint32_t` index) and left the other cells alone. -/
theorem edma_register_netdevice_ok_table (g : EdmaGmacDefs) (env : IrqEnv) (hw : EdmaHw)
    (k : Kernel) (netdev macid : Nat)
    (hret : (edma_register_netdevice g env hw k netdev macid).1 = 0) :
    (edma_register_netdevice g env hw k netdev macid).2.1.netdev_arr
      = Function.update hw.netdev_arr ((macid + 2 ^ 32 - 1) % 2 ^ 32) netdev := by
  simp only [edma_register_netdevice] at hret ⊢
  split_ifs at hret ⊢ with h1 h2 h3 h4
  · simp [EINVAL] at hret
  · simp [EINVAL] at hret
  · simp [EINVAL] at hret
  · exact edma_irq_init_netdev_arr _ _ _
  · rfl

/-- C11: after a successful `edma_register_netdevice(netdev, macid)` with a
non-NULL `netdev` and `EDMA_START_GMACS <= macid <= EDMA_MAX_GMACS` (ports
start at 1, `macid` is a `uint32_t`), `edma_get_port_num_from_netdev(netdev)`
returns `macid` provided no smaller table index holds `netdev`; for a `netdev`
found in no cell of the table the result is -1; and the result is always -1 or
within `[1, EDMA_MAX_GMACS]`. -/
theorem edma_port_num_round_trip (g : EdmaGmacDefs) (env : IrqEnv) (hw : EdmaHw) (k : Kernel)
    (netdev macid : Nat) :
    (netdev ≠ 0 → 1 ≤ g.EDMA_START_GMACS → g.EDMA_START_GMACS ≤ macid →
      macid ≤ g.EDMA_MAX_GMACS → macid < 2 ^ 32 →
      (edma_register_netdevice g env hw k netdev macid).1 = 0 →
      (∀ j, j < macid - 1 →
        (edma_register_netdevice g env hw k netdev macid).2.1.netdev_arr j ≠ netdev) →
      edma_get_port_num_from_netdev g
        (edma_register_netdevice g env hw k netdev macid).2.1 netdev = (macid : Int)) ∧
    ((∀ i, i < g.EDMA_MAX_GMACS → hw.netdev_arr i ≠ netdev) →
      edma_get_port_num_from_netdev g hw netdev = -1) ∧
    (edma_get_port_num_from_netdev g hw netdev = -1 ∨
      (1 ≤ edma_get_port_num_from_netdev g hw netdev ∧
        edma_get_port_num_from_netdev g hw netdev ≤ (g.EDMA_MAX_GMACS : Int))) := by
  refine ⟨?_, ?_, ?_⟩
  · intro _ hstart hlo hhi h32 hret hbefore
    have hidx : (macid + 2 ^ 32 - 1) % 2 ^ 32 = macid - 1 := by omega
    have htab := edma_register_netdevice_ok_table g env hw k netdev macid hret
    rw [hidx] at htab
    have hcell : (edma_register_netdevice g env hw k netdev macid).2.1.netdev_arr (macid - 1)
        = netdev := by rw [htab]; simp
    unfold edma_get_port_num_from_netdev
    rw [List.range_eq_range']
    have := port_num_loop_first
      (edma_register_netdevice g env hw k netdev macid).2.1.netdev_arr netdev (macid - 1)
      g.EDMA_MAX_GMACS 0 (Nat.zero_le _) (by omega) hcell (fun j _ hj => hbefore j hj)
    rw [this]
    omega
  · intro habsent
    unfold edma_get_port_num_from_netdev
    exact port_num_loop_absent _ _ _ (fun i hi => habsent i (List.mem_range.mp hi))
  · unfold edma_get_port_num_from_netdev
    rw [List.range_eq_range']
    rcases port_num_loop_range hw.netdev_arr netdev g.EDMA_MAX_GMACS 0 with h | ⟨h1, h2⟩
    · left; exact h
    · right
      constructor
      · simpa using h1
      · simpa using h2

/-- Witness for C11: registering the device at `0x5000` as port 2 in an empty
table, then looking it up. -/
theorem edma_port_num_round_trip_witness :
    edma_get_port_num_from_netdev sample_gmacs
      (edma_register_netdevice sample_gmacs (sample_irq_env [] 16)
        (sample_hw 23 1 7 1 7 1 15 1 0) kernel0 0x5000 2).2.1 0x5000 = 2 :=
  (edma_port_num_round_trip sample_gmacs (sample_irq_env [] 16)
    (sample_hw 23 1 7 1 7 1 15 1 0) kernel0 0x5000 2).1
    (by decide) (by decide) (by decide) (by decide) (by decide) (by decide) (by decide)

/-- C12: starting with `edma_hw.active = 0` and NAPI disabled, after every
sequence of `edma_if_open` (non-NULL `dpc->dev`) and `edma_if_close` calls in
which no prefix has more closes than opens, `active` is the number of opens
minus the number of closes and NAPI is enabled exactly when `active > 0`.  In
any state, `edma_if_open` calls `napi_enable` exactly when `active` was 0 and
`edma_if_close` calls `napi_disable` exactly when `active` was 1; with a NULL
`dpc->dev`, `edma_if_open` returns `NSS_DP_FAILURE` and changes nothing. -/
theorem edma_napi_refcount (codes : NssDpCodes) (dev : Nat) (hdev : dev ≠ 0)
    (hw : EdmaHw) (k : Kernel) (h0 : hw.active = 0) (hn : k.napi_enabled = false)
    (ops : List IfOp)
    (hbal : ∀ n, (ops.take n).count IfOp.op_close ≤ (ops.take n).count IfOp.op_open) :
    ((if_run codes dev ops (hw, k)).1.active
        = (ops.count IfOp.op_open : Int) - (ops.count IfOp.op_close : Int) ∧
      ((if_run codes dev ops (hw, k)).2.napi_enabled = true ↔
        0 < (if_run codes dev ops (hw, k)).1.active)) ∧
    (∀ (hw1 : EdmaHw) (k1 : Kernel),
      (edma_if_open codes hw1 k1 dev).2.1.active = hw1.active + 1 ∧
      (edma_if_open codes hw1 k1 dev).2.2.trace
        = k1.trace ++ (if hw1.active = 0 then [KEvent.napi_enable] else []) ∧
      (edma_if_close codes hw1 k1).2.1.active = hw1.active - 1 ∧
      (edma_if_close codes hw1 k1).2.2.trace
        = k1.trace ++ (if hw1.active = 1 then [KEvent.napi_disable] else []) ∧
      edma_if_open codes hw1 k1 0 = (codes.NSS_DP_FAILURE, hw1, k1)) := by
  constructor
  · induction ops using List.reverseRecOn with
    | nil => simp [if_run, h0, hn]
    | append_singleton l a ih =>
      have hbal_l : ∀ n, (l.take n).count IfOp.op_close ≤ (l.take n).count IfOp.op_open := by
        intro n
        by_cases hle : n ≤ l.length
        · have := hbal n
          rwa [List.take_append_of_le_length hle] at this
        · have := hbal l.length
          rw [List.take_append_of_le_length (le_refl _), List.take_length] at this
          rwa [List.take_of_length_le (by omega)]
      have hwhole_l := hbal_l l.length
      rw [List.take_length] at hwhole_l
      have hwhole := hbal (l ++ [a]).length
      rw [List.take_length] at hwhole
      obtain ⟨hact, hen⟩ := ih hbal_l
      have hrun : if_run codes dev (l ++ [a]) (hw, k)
          = if_step codes dev (if_run codes dev l (hw, k)) a := by
        simp [if_run, List.foldl_append]
      rw [hrun]
      generalize if_run codes dev l (hw, k) = s at hact hen
      cases a with
      | op_open =>
        simp only [List.count_append, List.count_singleton, if_step, edma_if_open, hdev,
          if_false] at hwhole ⊢
        by_cases hz : s.1.active = 0
        · simp [hz] at hact ⊢
          omega
        · have hpos : 0 < s.1.active := by omega
          simp [hz, hen, hpos] 
          constructor
          · omega
          · omega
      | op_close =>
        simp only [List.count_append, List.count_singleton, if_step, edma_if_close] at hwhole ⊢
        simp at hwhole
        by_cases hz : s.1.active - 1 = 0
        · simp [hz]
          omega
        · have hpos : 0 < s.1.active := by omega
          simp [hz, hen, hpos]
          constructor
          · omega
          · omega
  · intro hw1 k1
    refine ⟨?_, ?_, ?_, ?_, ?_⟩
    · simp only [edma_if_open, hdev, if_false]
      split_ifs <;> rfl
    · simp only [edma_if_open, hdev, if_false]
      by_cases hz : hw1.active = 0 <;> simp [hz]
    · simp only [edma_if_close]
      split_ifs <;> rfl
    · simp only [edma_if_close]
      by_cases hz : hw1.active - 1 = 0
      · have h1 : hw1.active = 1 := by omega
        simp [h1]
      · have h1 : hw1.active ≠ 1 := by omega
        simp [hz, h1]
    · simp [edma_if_open]


/-- Witness for C12: open, open, close on an idle driver leaves one open
interface, with NAPI enabled. -/
theorem edma_napi_refcount_witness :
    (if_run sample_dp_codes 0x5000 [IfOp.op_open, IfOp.op_open, IfOp.op_close]
        (sample_hw 23 1 7 1 7 1 15 1 1, kernel0)).1.active = 1 ∧
    ((if_run sample_dp_codes 0x5000 [IfOp.op_open, IfOp.op_open, IfOp.op_close]
        (sample_hw 23 1 7 1 7 1 15 1 1, kernel0)).2.napi_enabled = true ↔
      0 < (if_run sample_dp_codes 0x5000 [IfOp.op_open, IfOp.op_open, IfOp.op_close]
        (sample_hw 23 1 7 1 7 1 15 1 1, kernel0)).1.active) ∧
    (if_run sample_dp_codes 0x5000 [IfOp.op_open, IfOp.op_open, IfOp.op_close]
        (sample_hw 23 1 7 1 7 1 15 1 1, kernel0)).2.trace = [KEvent.napi_enable] :=
  ⟨by decide,
   (edma_napi_refcount sample_dp_codes 0x5000 (by decide)
      (sample_hw 23 1 7 1 7 1 15 1 1) kernel0 rfl rfl
      [IfOp.op_open, IfOp.op_open, IfOp.op_close]
      (by intro n; rcases n with _ | _ | _ | n <;> simp [List.count_cons])).1.2,
   by decide⟩

/-- C13 (evaluation at the failing input): for a net device that is in no cell
of the port table, `edma_if_vsi_assign` returns `NSS_DP_FAILURE` but
`edma_if_vsi_unassign` returns `NSS_DP_SUCCESS`; indeed `edma_if_vsi_unassign`
returns `NSS_DP_SUCCESS` for every table and every device, because its
`uint32_t port_num` is never negative. -/
theorem edma_if_vsi_unassign_never_fails :
    edma_get_port_num_from_netdev sample_gmacs (sample_hw 23 1 7 1 7 1 15 1 1) 0x5000 = -1 ∧
    edma_if_vsi_assign sample_dp_codes sample_gmacs (sample_hw 23 1 7 1 7 1 15 1 1) 0x5000 3
      = sample_dp_codes.NSS_DP_FAILURE ∧
    edma_if_vsi_unassign sample_dp_codes sample_gmacs (sample_hw 23 1 7 1 7 1 15 1 1) 0x5000 3
      = sample_dp_codes.NSS_DP_SUCCESS ∧
    sample_dp_codes.NSS_DP_SUCCESS ≠ sample_dp_codes.NSS_DP_FAILURE ∧
    (∀ (codes : NssDpCodes) (g : EdmaGmacDefs) (hw : EdmaHw) (netdev vsi : Nat),
      edma_if_vsi_unassign codes g hw netdev vsi = codes.NSS_DP_SUCCESS) := by
  refine ⟨by decide, by decide, by decide, by decide, ?_⟩
  intro codes g hw netdev vsi
  simp [edma_if_vsi_unassign]

/-- C14 (evaluation at the failing input): on the first registration, when
`edma_irq_init` fails, `edma_register_netdevice(0x5000, 1)` returns `-EINVAL`
but cell 0 of `edma_hw.netdev_arr`, NULL before the call, now holds the device;
`netif_napi_add` has been called and `napi_added` is still 0. -/
theorem edma_register_netdevice_failure_keeps_entry :
    (sample_hw 23 1 7 1 7 1 15 1 0).netdev_arr 0 = 0 ∧
    (edma_irq_init (sample_irq_env [100] 16)
      { sample_hw 23 1 7 1 7 1 15 1 0 with
        netdev_arr := Function.update (sample_hw 23 1 7 1 7 1 15 1 0).netdev_arr 0 0x5000 }
      (kernel0.log KEvent.netif_napi_add)).1 = -1 ∧
    (edma_register_netdevice sample_gmacs (sample_irq_env [100] 16)
      (sample_hw 23 1 7 1 7 1 15 1 0) kernel0 0x5000 1).1 = -EINVAL ∧
    (edma_register_netdevice sample_gmacs (sample_irq_env [100] 16)
      (sample_hw 23 1 7 1 7 1 15 1 0) kernel0 0x5000 1).2.1.netdev_arr 0 = 0x5000 ∧
    (edma_register_netdevice sample_gmacs (sample_irq_env [100] 16)
      (sample_hw 23 1 7 1 7 1 15 1 0) kernel0 0x5000 1).2.1.napi_added = 0 ∧
    (edma_register_netdevice sample_gmacs (sample_irq_env [100] 16)
      (sample_hw 23 1 7 1 7 1 15 1 0) kernel0 0x5000 1).2.2.trace
      = [KEvent.netif_napi_add,
         KEvent.request_irq 100 IrqHandler.edma_handle_irq "edma_txcmpl" 0x1000] := by
  decide

/-- C17 (evaluation at the failing inputs): a linear, unshared 64-byte skb with
64 bytes of headroom and no tailroom, on a device needing 32 bytes of headroom
and 16 of tailroom, is sent without `pskb_expand_head`, although its tailroom
is short; and an skb with 8 bytes of headroom and 100 of tailroom, on a device
needing no headroom and 16 bytes of tailroom, is expanded although neither room
is short: the third test compares the headroom with `needed_tailroom`. -/
theorem edma_if_xmit_tailroom_unchecked :
    (edma_if_xmit sample_codes (sample_xmit_env 0) 1
        { sample_netdev with needed_headroom := 32, needed_tailroom := 16 }
        { sample_skb with headroom := 64, tailroom := 0 }).events
      = [XmitEvent.edma_ring_xmit 0] ∧
    ((0 : Nat) < 16 ∧ ¬ (64 : Nat) < 32) ∧
    (edma_if_xmit sample_codes (sample_xmit_env 0) 1
        { sample_netdev with needed_headroom := 0, needed_tailroom := 16 }
        { sample_skb with headroom := 8, tailroom := 100 }).events
      = [XmitEvent.pskb_expand_head 0 16, XmitEvent.edma_ring_xmit 0] ∧
    (¬ (8 : Nat) < 0 ∧ ¬ (100 : Nat) < 16 ∧ sample_skb.cloned = false) := by
  decide

/-- C18 (evaluation at the failing input): with two TXDESC rings and an skb
mapped to queue 3, the ring index is `2 % 3 = 2`, which is not below the number
of rings, and `edma_ring_xmit` is handed `edma_hw.txdesc_ring[2]`. -/
theorem edma_if_xmit_tx_ring_out_of_range :
    xmit_tx_ring 2 3 = 2 ∧ ¬ xmit_tx_ring 2 3 < 2 ∧
    (edma_if_xmit sample_codes (sample_xmit_env 0) 2 sample_netdev
        { sample_skb with queue_mapping := 3 }).events
      = [XmitEvent.edma_ring_xmit 2] := by
  decide

/-- C19 (evaluation at the failing input): when the EDMA node is missing from
the device tree, `edma_of_get_pdata` fails with `-EINVAL` and `edma_init`
returns 0, having requested, mapped and initialised nothing. -/
theorem edma_init_pdata_failure_returns_zero :
    (edma_of_get_pdata { sample_dt with device_node := 0 }
      (sample_hw 0 0 0 0 0 0 0 0 0) kernel0).1 = -EINVAL ∧
    (edma_init { sample_init_env true true 0 with dt := { sample_dt with device_node := 0 } }
      (sample_hw 0 0 0 0 0 0 0 0 0) kernel0).1 = 0 ∧
    (edma_init { sample_init_env true true 0 with dt := { sample_dt with device_node := 0 } }
      (sample_hw 0 0 0 0 0 0 0 0 0) kernel0).2.2 = kernel0 := by
  decide

/-- C16 (evaluation at the failing input): a linear, unshared 64-byte skb with
8 bytes of headroom and 100 of tailroom, on a device needing no headroom and 16
bytes of tailroom, is long enough, linear and in no need of expansion; yet
`edma_if_xmit` calls `pskb_expand_head`, and when that fails it frees the skb,
counts a drop and returns `NETDEV_TX_OK`, without `edma_ring_xmit` having been
called and so without any code from it. -/
theorem edma_if_xmit_drops_without_reason :
    ¬ ({ sample_skb with headroom := 8, tailroom := 100 } : SkBuff).len < ETH_HLEN ∧
    ({ sample_skb with headroom := 8, tailroom := 100 } : SkBuff).data_len = 0 ∧
    skb_needs_expansion { sample_netdev with needed_headroom := 0, needed_tailroom := 16 }
      { sample_skb with headroom := 8, tailroom := 100 } = false ∧
    (edma_if_xmit sample_codes (sample_xmit_env_nomem 0) 1
        { sample_netdev with needed_headroom := 0, needed_tailroom := 16 }
        { sample_skb with headroom := 8, tailroom := 100 }).events
      = [XmitEvent.pskb_expand_head 0 16, XmitEvent.dev_kfree_skb_any] ∧
    (edma_if_xmit sample_codes (sample_xmit_env_nomem 0) 1
        { sample_netdev with needed_headroom := 0, needed_tailroom := 16 }
        { sample_skb with headroom := 8, tailroom := 100 }).skb_freed = true ∧
    (edma_if_xmit sample_codes (sample_xmit_env_nomem 0) 1
        { sample_netdev with needed_headroom := 0, needed_tailroom := 16 }
        { sample_skb with headroom := 8, tailroom := 100 }).netdev.tx_dropped
      = sample_netdev.tx_dropped + 1 ∧
    (edma_if_xmit sample_codes (sample_xmit_env_nomem 0) 1
        { sample_netdev with needed_headroom := 0, needed_tailroom := 16 }
        { sample_skb with headroom := 8, tailroom := 100 }).ret = NETDEV_TX_OK := by
  decide

end Edma

namespace Ssdk

/-- A run of `add_qca_phy_dev` calls from any state with
`m_used_dev_id = m <= QCA_MAX_PHY_NUM`: call `j` (from 0) returns `m + j` while
that is below `QCA_MAX_PHY_NUM` and `2 ^ 32 - 1` afterwards; the counter ends at
`min (m + n) QCA_MAX_PHY_NUM`; the cells from `m` up to there hold the
arguments and every other cell is untouched. -/
theorem add_qca_phy_devs_from (ps : List (Option QcaPhyPriv)) :
    ∀ (st : SsdkState), st.m_used_dev_id ≤ QCA_MAX_PHY_NUM →
      (add_qca_phy_devs st ps).1
        = (List.range ps.length).map (fun j =>
            if st.m_used_dev_id + j < QCA_MAX_PHY_NUM then st.m_used_dev_id + j
            else 2 ^ 32 - 1) ∧
      (add_qca_phy_devs st ps).2.m_used_dev_id
        = min (st.m_used_dev_id + ps.length) QCA_MAX_PHY_NUM ∧
      ∀ i, (add_qca_phy_devs st ps).2.qca_phy_priv_global i
        = if st.m_used_dev_id ≤ i ∧ i < min (st.m_used_dev_id + ps.length) QCA_MAX_PHY_NUM
          then ps.getD (i - st.m_used_dev_id) none
          else st.qca_phy_priv_global i := by
  induction ps with
  | nil =>
    intro st hm
    refine ⟨rfl, ?_, ?_⟩
    · simp [add_qca_phy_devs, hm]
    · intro i
      rw [if_neg]
      · rfl
      · simp only [List.length_nil, add_zero]
        omega
  | cons p rest ih =>
    intro st hm
    simp only [QCA_MAX_PHY_NUM] at hm ih ⊢
    by_cases hfull : st.m_used_dev_id ≥ 4
    · have h4 : st.m_used_dev_id = 4 := by omega
      have hstep : add_qca_phy_dev st p = (2 ^ 32 - 1, st) := by
        simp [add_qca_phy_dev, QCA_MAX_PHY_NUM, hfull]
      obtain ⟨ih1, ih2, ih3⟩ := ih st hm
      simp only [add_qca_phy_devs, hstep]
      refine ⟨?_, ?_, ?_⟩
      · have hf : ∀ j, (if st.m_used_dev_id + j < 4 then st.m_used_dev_id + j
            else 2 ^ 32 - 1) = 2 ^ 32 - 1 := by
          intro j
          rw [if_neg]
          omega
        rw [ih1, List.length_cons, List.range_succ_eq_map, List.map_cons, List.map_map]
        simp only [hf, Function.comp_def]
      · rw [ih2]
        simp only [List.length_cons]
        omega
      · intro i
        rw [ih3 i, if_neg, if_neg]
        · simp only [List.length_cons]; omega
        · omega
    · have hlt : st.m_used_dev_id < 4 := by omega
      have hmod : (st.m_used_dev_id + 1) % 2 ^ 32 = st.m_used_dev_id + 1 := by omega
      have hstep : add_qca_phy_dev st p = (st.m_used_dev_id,
          { st with
            m_used_dev_id := st.m_used_dev_id + 1
            qca_phy_priv_global :=
              Function.update st.qca_phy_priv_global st.m_used_dev_id p }) := by
        unfold add_qca_phy_dev
        rw [if_neg (by simp only [QCA_MAX_PHY_NUM]; omega)]
        simp only [hmod]
      obtain ⟨ih1, ih2, ih3⟩ := ih
        { st with
          m_used_dev_id := st.m_used_dev_id + 1
          qca_phy_priv_global := Function.update st.qca_phy_priv_global st.m_used_dev_id p }
        (by show st.m_used_dev_id + 1 ≤ 4; omega)
      dsimp only at ih1 ih2 ih3
      simp only [add_qca_phy_devs, hstep]
      refine ⟨?_, ?_, ?_⟩
      · rw [ih1, List.length_cons, List.range_succ_eq_map, List.map_cons, List.map_map]
        simp only [hlt, add_zero, if_true, List.cons.injEq, true_and]
        apply List.map_congr_left
        intro j _
        simp only [Function.comp, Nat.succ_eq_add_one]
        have : st.m_used_dev_id + 1 + j = st.m_used_dev_id + (j + 1) := by omega
        rw [this]
      · rw [ih2]
        simp only [List.length_cons]
        congr 1
        omega
      · intro i
        rw [ih3 i]
        simp only [List.length_cons]
        by_cases hi : i = st.m_used_dev_id
        · subst hi
          have h1 : ¬ (st.m_used_dev_id + 1 ≤ st.m_used_dev_id ∧
              st.m_used_dev_id < min (st.m_used_dev_id + 1 + rest.length) 4) := by omega
          have h2 : st.m_used_dev_id ≤ st.m_used_dev_id ∧
              st.m_used_dev_id < min (st.m_used_dev_id + (rest.length + 1)) 4 := by omega
          simp [h1, h2]
        · by_cases hin : st.m_used_dev_id + 1 ≤ i ∧
              i < min (st.m_used_dev_id + 1 + rest.length) 4
          · have h2 : st.m_used_dev_id ≤ i ∧
                i < min (st.m_used_dev_id + (rest.length + 1)) 4 := by omega
            have hsub : i - st.m_used_dev_id = (i - (st.m_used_dev_id + 1)) + 1 := by omega
            simp only [hin, h2, and_self, if_true, hsub, List.getD_cons_succ]
          · have h2 : ¬ (st.m_used_dev_id ≤ i ∧
                i < min (st.m_used_dev_id + (rest.length + 1)) 4) := by omega
            rw [if_neg hin, if_neg h2, Function.update_noteq hi]


/-- C20: starting from `m_used_dev_id = 0`, in any sequence of
`add_qca_phy_dev` calls the call number `j` (counted from 0) returns `j` if
`j < QCA_MAX_PHY_NUM` and `2 ^ 32 - 1` otherwise; afterwards `m_used_dev_id` is
the number of calls capped at `QCA_MAX_PHY_NUM`, cell `i` below that holds the
argument of call `i`, and every other cell, in particular every cell outside
the table, is as before.  A call made when `m_used_dev_id >= QCA_MAX_PHY_NUM`
returns `2 ^ 32 - 1` and changes nothing, and the ids returned by two
different successful calls differ. -/
theorem add_qca_phy_dev_allocation (st : SsdkState) (ps : List (Option QcaPhyPriv))
    (h0 : st.m_used_dev_id = 0) :
    (add_qca_phy_devs st ps).1
      = (List.range ps.length).map (fun j => if j < QCA_MAX_PHY_NUM then j else 2 ^ 32 - 1) ∧
    (add_qca_phy_devs st ps).2.m_used_dev_id = min ps.length QCA_MAX_PHY_NUM ∧
    (add_qca_phy_devs st ps).2.m_used_dev_id ≤ QCA_MAX_PHY_NUM ∧
    (∀ i, (add_qca_phy_devs st ps).2.qca_phy_priv_global i
      = if i < min ps.length QCA_MAX_PHY_NUM then ps.getD i none
        else st.qca_phy_priv_global i) ∧
    (∀ (st1 : SsdkState) (priv : Option QcaPhyPriv), st1.m_used_dev_id ≥ QCA_MAX_PHY_NUM →
      add_qca_phy_dev st1 priv = (2 ^ 32 - 1, st1)) ∧
    (∀ j1 j2, j1 < ps.length → j2 < ps.length → j1 ≠ j2 →
      (add_qca_phy_devs st ps).1.getD j1 0 ≠ 2 ^ 32 - 1 →
      (add_qca_phy_devs st ps).1.getD j1 0 ≠ (add_qca_phy_devs st ps).1.getD j2 0) := by
  obtain ⟨h1, h2, h3⟩ := add_qca_phy_devs_from ps st (by rw [h0]; exact Nat.zero_le _)
  simp only [h0, zero_add, Nat.zero_le, true_and, Nat.sub_zero] at h1 h2 h3
  refine ⟨h1, h2, ?_, h3, ?_, ?_⟩
  · rw [h2]; exact min_le_right _ _
  · intro st1 priv hfull
    simp [add_qca_phy_dev, hfull]
  · intro j1 j2 hj1 hj2 hne
    rw [h1]
    simp only [List.getD_eq_getElem?_getD, List.getElem?_map, List.getElem?_range hj1,
      List.getElem?_range hj2, Option.map_some', Option.getD_some, QCA_MAX_PHY_NUM]
    intro hsucc
    split_ifs at hsucc ⊢ <;> omega

/-- Witness for C20: six calls on a fresh table. -/
theorem add_qca_phy_dev_allocation_witness :
    (add_qca_phy_devs { sample_ssdk with m_used_dev_id := 0 }
      [some sample_priv, none, some sample_priv, none, none, some sample_priv]).1
      = [0, 1, 2, 3, 2 ^ 32 - 1, 2 ^ 32 - 1] :=
  (add_qca_phy_dev_allocation { sample_ssdk with m_used_dev_id := 0 }
    [some sample_priv, none, some sample_priv, none, none, some sample_priv] rfl).1

end Ssdk

namespace Edma

/-- A register-write loop appends one write per visited ring, in order. -/
theorem reg_write_loop_trace (reg : Nat → EdmaReg) (ring : Nat → EdmaRing) (val : Nat)
    (is : List Nat) : ∀ k : Kernel,
    (reg_write_loop reg ring val is k).trace
      = k.trace ++ is.map (fun i => KEvent.reg_write (reg (ring i).id) val) := by
  induction is with
  | nil => intro k; simp [reg_write_loop]
  | cons i rest ih =>
    intro k
    have := ih (edma_reg_write k (reg (ring i).id) val)
    simp only [reg_write_loop, List.foldl_cons] at this ⊢
    rw [this]
    simp [edma_reg_write]

/-- A request loop appends only `request_irq` calls, and when it succeeds it
has made exactly one call per visited ring, in order. -/
theorem request_irq_loop_trace (env : IrqEnv) (intr : Nat → Int) (name : String)
    (dev_id : Nat) (is : List Nat) : ∀ k : Kernel,
    ∃ l, (request_irq_loop env intr name dev_id is k).2.trace = k.trace ++ l ∧
      no_reg_write l ∧
      ((request_irq_loop env intr name dev_id is k).1 = true →
        l = is.map (fun i =>
          KEvent.request_irq (intr i) IrqHandler.edma_handle_irq name dev_id)) := by
  induction is with
  | nil =>
    intro k
    exact ⟨[], by simp [request_irq_loop], by intro e he; simp at he, by simp⟩
  | cons i rest ih =>
    intro k
    by_cases herr : env.request_irq_err (intr i) = 0
    · obtain ⟨l, h1, h2, h3⟩ := ih
        { k with
          trace := k.trace ++ [KEvent.request_irq (intr i) IrqHandler.edma_handle_irq name dev_id]
          irq_actions := k.irq_actions ++ [⟨intr i, IrqHandler.edma_handle_irq, name, dev_id⟩] }
      refine ⟨KEvent.request_irq (intr i) IrqHandler.edma_handle_irq name dev_id :: l, ?_, ?_, ?_⟩
      · simp only [request_irq_loop, request_irq, herr, ne_eq, not_true_eq_false, if_false]
        rw [h1]
        simp
      · intro e he reg v
        rcases List.mem_cons.mp he with h | h
        · rw [h]; simp
        · exact h2 e h reg v
      · intro hok
        simp only [request_irq_loop, request_irq, herr, ne_eq, not_true_eq_false,
          if_false] at hok
        rw [h3 hok]
        simp
    · refine ⟨[KEvent.request_irq (intr i) IrqHandler.edma_handle_irq name dev_id], ?_, ?_, ?_⟩
      · simp [request_irq_loop, request_irq, herr]
      · intro e he reg v
        simp only [List.mem_singleton] at he
        rw [he]; simp
      · intro hok
        simp [request_irq_loop, request_irq, herr] at hok

/-- A free loop appends only `synchronize_irq` and `free_irq` calls. -/
theorem free_irq_loop_trace (intr : Nat → Int) (dev_id : Nat) (n : Nat) (k : Kernel) :
    ∃ l, (free_irq_loop intr dev_id n k).trace = k.trace ++ l ∧ no_reg_write l := by
  unfold free_irq_loop
  generalize List.range n = is
  induction is generalizing k with
  | nil => exact ⟨[], by simp, by intro e he; simp at he⟩
  | cons i rest ih =>
    obtain ⟨l, h1, h2⟩ := ih (free_irq (synchronize_irq k (intr i)) (intr i) dev_id)
    refine ⟨KEvent.synchronize_irq (intr i) :: KEvent.free_irq (intr i) dev_id :: l, ?_, ?_⟩
    · simp only [List.foldl_cons]
      rw [h1]
      simp [free_irq, synchronize_irq]
    · intro e he reg v
      simp only [List.mem_cons] at he
      rcases he with h | h | h
      · rw [h]; simp
      · rw [h]; simp
      · exact h2 e h reg v

/-- Appending write-free event lists keeps them write-free. -/
theorem no_reg_write_append (l1 l2 : List KEvent) (h1 : no_reg_write l1)
    (h2 : no_reg_write l2) : no_reg_write (l1 ++ l2) := by
  intro e he reg v
  rcases List.mem_append.mp he with h | h
  · exact h1 e h reg v
  · exact h2 e h reg v

/-- The mask block appends exactly the mask writes. -/
theorem irq_init_set_masks_trace (hw : EdmaHw) (k : Kernel) :
    (irq_init_set_masks hw k).trace = k.trace ++ irq_init_mask_writes hw := by
  simp only [irq_init_set_masks, irq_init_mask_writes, edma_reg_write, reg_write_loop_trace,
    List.append_assoc]

/-- The request half of `edma_irq_init` either returns 0 after exactly the
expected requests and mask writes, or returns -1 without any register write. -/
theorem irq_init_request_spec (env : IrqEnv) (hw : EdmaHw) (k : Kernel) :
    ((irq_init_request env hw k).1 = 0 ∧
      (irq_init_request env hw k).2.trace
        = k.trace ++ irq_table_requests hw ++ irq_init_mask_writes hw) ∨
    ((irq_init_request env hw k).1 = -1 ∧
      ∃ l, (irq_init_request env hw k).2.trace = k.trace ++ l ∧ no_reg_write l) := by
  obtain ⟨l1, ht1, hn1, hs1⟩ := request_irq_loop_trace env hw.txcmpl_intr "edma_txcmpl"
    (request_dev_id hw) (List.range hw.txcmpl_rings) k
  simp only [irq_init_request]
  by_cases h1 : (request_irq_loop env hw.txcmpl_intr "edma_txcmpl" (request_dev_id hw)
      (List.range hw.txcmpl_rings) k).1 = false
  · right
    rw [if_pos h1]
    exact ⟨rfl, l1, ht1, hn1⟩
  · rw [if_neg h1]
    have hl1 := hs1 (by simpa using h1)
    obtain ⟨l2, ht2, hn2, hs2⟩ := request_irq_loop_trace env hw.rxfill_intr "edma_rxfill"
      (request_dev_id hw) (List.range hw.rxfill_rings)
      (request_irq_loop env hw.txcmpl_intr "edma_txcmpl" (request_dev_id hw)
        (List.range hw.txcmpl_rings) k).2
    by_cases h2 : (request_irq_loop env hw.rxfill_intr "edma_rxfill" (request_dev_id hw)
        (List.range hw.rxfill_rings)
        (request_irq_loop env hw.txcmpl_intr "edma_txcmpl" (request_dev_id hw)
          (List.range hw.txcmpl_rings) k).2).1 = false
    · right
      rw [if_pos h2]
      obtain ⟨lf, hf1, hf2⟩ := free_irq_loop_trace hw.txcmpl_intr (free_dev_id env hw)
        hw.txcmpl_rings (request_irq_loop env hw.rxfill_intr "edma_rxfill" (request_dev_id hw)
          (List.range hw.rxfill_rings)
          (request_irq_loop env hw.txcmpl_intr "edma_txcmpl" (request_dev_id hw)
            (List.range hw.txcmpl_rings) k).2).2
      refine ⟨rfl, l1 ++ l2 ++ lf, ?_, ?_⟩
      · simp only [irq_init_rx_fill_fail]
        rw [hf1, ht2, ht1]
        simp only [List.append_assoc]
      · exact no_reg_write_append _ _ (no_reg_write_append _ _ hn1 hn2) hf2
    · rw [if_neg h2]
      have hl2 := hs2 (by simpa using h2)
      obtain ⟨l3, ht3, hn3, hs3⟩ := request_irq_loop_trace env hw.rxdesc_intr "edma_rxdesc"
        (request_dev_id hw) (List.range hw.rxdesc_rings)
        (request_irq_loop env hw.rxfill_intr "edma_rxfill" (request_dev_id hw)
          (List.range hw.rxfill_rings)
          (request_irq_loop env hw.txcmpl_intr "edma_txcmpl" (request_dev_id hw)
            (List.range hw.txcmpl_rings) k).2).2
      generalize (request_irq_loop env hw.rxdesc_intr "edma_rxdesc" (request_dev_id hw)
        (List.range hw.rxdesc_rings)
        (request_irq_loop env hw.rxfill_intr "edma_rxfill" (request_dev_id hw)
          (List.range hw.rxfill_rings)
          (request_irq_loop env hw.txcmpl_intr "edma_txcmpl" (request_dev_id hw)
            (List.range hw.txcmpl_rings) k).2).2) = r3 at ht3 hs3 ⊢
      have ht3' : r3.2.trace = k.trace ++ (l1 ++ l2 ++ l3) := by
        rw [ht3, ht2, ht1]; simp only [List.append_assoc]
      have hn123 : no_reg_write (l1 ++ l2 ++ l3) :=
        no_reg_write_append _ _ (no_reg_write_append _ _ hn1 hn2) hn3
      by_cases h3 : r3.1 = false
      · right
        rw [if_pos h3]
        obtain ⟨lf1, hf11, hf12⟩ := free_irq_loop_trace hw.rxfill_intr (free_dev_id env hw)
          hw.rxfill_rings r3.2
        obtain ⟨lf2, hf21, hf22⟩ := free_irq_loop_trace hw.txcmpl_intr (free_dev_id env hw)
          hw.txcmpl_rings (free_irq_loop hw.rxfill_intr (free_dev_id env hw) hw.rxfill_rings r3.2)
        refine ⟨rfl, (l1 ++ l2 ++ l3) ++ lf1 ++ lf2, ?_, ?_⟩
        · simp only [irq_init_rx_desc_fail, irq_init_rx_fill_fail]
          rw [hf21, hf11, ht3']
          simp only [List.append_assoc]
        · exact no_reg_write_append _ _ (no_reg_write_append _ _ hn123 hf12) hf22
      · rw [if_neg h3]
        have hl3 := hs3 (by simpa using h3)
        by_cases h4 : env.request_irq_err hw.misc_intr = 0
        · left
          simp only [request_irq, h4, ne_eq, not_true_eq_false, if_false]
          refine ⟨trivial, ?_⟩
          rw [irq_init_set_masks_trace]
          simp only [ht3', hl1, hl2, hl3, irq_table_requests, request_dev_id, List.append_assoc]
        · right
          have hmisc : (request_irq env r3.2 hw.misc_intr IrqHandler.edma_handle_misc_irq
              "edma_misc" (request_dev_id hw)) = (env.request_irq_err hw.misc_intr,
              { r3.2 with trace := r3.2.trace ++ [KEvent.request_irq hw.misc_intr
                  IrqHandler.edma_handle_misc_irq "edma_misc" (request_dev_id hw)] }) := by
            simp [request_irq, h4]
          rw [hmisc]
          simp only [ne_eq, h4, not_false_eq_true, if_true]
          obtain ⟨lf0, hf01, hf02⟩ := free_irq_loop_trace hw.rxdesc_intr (free_dev_id env hw)
            hw.rxdesc_rings { r3.2 with trace := r3.2.trace ++ [KEvent.request_irq hw.misc_intr
              IrqHandler.edma_handle_misc_irq "edma_misc" (request_dev_id hw)] }
          obtain ⟨lf1, hf11, hf12⟩ := free_irq_loop_trace hw.rxfill_intr (free_dev_id env hw)
            hw.rxfill_rings (free_irq_loop hw.rxdesc_intr (free_dev_id env hw)
              hw.rxdesc_rings { r3.2 with trace := r3.2.trace ++ [KEvent.request_irq hw.misc_intr
                IrqHandler.edma_handle_misc_irq "edma_misc" (request_dev_id hw)] })
          obtain ⟨lf2, hf21, hf22⟩ := free_irq_loop_trace hw.txcmpl_intr (free_dev_id env hw)
            hw.txcmpl_rings (free_irq_loop hw.rxfill_intr (free_dev_id env hw)
              hw.rxfill_rings (free_irq_loop hw.rxdesc_intr (free_dev_id env hw)
                hw.rxdesc_rings { r3.2 with trace := r3.2.trace ++ [KEvent.request_irq
                  hw.misc_intr IrqHandler.edma_handle_misc_irq "edma_misc"
                  (request_dev_id hw)] }))
          refine ⟨rfl, (l1 ++ l2 ++ l3) ++ [KEvent.request_irq hw.misc_intr
              IrqHandler.edma_handle_misc_irq "edma_misc" (request_dev_id hw)]
              ++ lf0 ++ lf1 ++ lf2, ?_, ?_⟩
          · simp only [irq_init_misc_fail, irq_init_rx_desc_fail, irq_init_rx_fill_fail]
            rw [hf21, hf11, hf01]
            simp only [ht3', List.append_assoc]
          · refine no_reg_write_append _ _ (no_reg_write_append _ _
              (no_reg_write_append _ _ (no_reg_write_append _ _ hn123 ?_) hf02) hf12) hf22
            intro e he reg v
            simp only [List.mem_singleton] at he
            rw [he]; simp

/-- An event either leaves the tracked register alone or is a write to it. -/
theorem reg_step_cases (reg : EdmaReg) (acc : Option Nat) (e : KEvent) :
    ((∀ v, e ≠ KEvent.reg_write reg v) ∧ reg_step reg acc e = acc) ∨
    (∃ v, e = KEvent.reg_write reg v ∧ reg_step reg acc e = some v) := by
  cases e with
  | reg_write r v =>
    by_cases h : r = reg
    · right; exact ⟨v, by rw [h], by simp [reg_step, h]⟩
    · left
      refine ⟨?_, by simp [reg_step, h]⟩
      intro v' hv
      injection hv with h1 _
      exact h h1
  | _ => left; exact ⟨(by intro v hv; cases hv), rfl⟩

/-- When every write to `reg` among the last events `W` carries `v`, and there
is one, the register holds `v` at the end. -/
theorem reg_value_last_writes (reg : EdmaReg) (v : Nat) (T W : List KEvent)
    (hall : ∀ v1, KEvent.reg_write reg v1 ∈ W → v1 = v)
    (hex : ∃ v1, KEvent.reg_write reg v1 ∈ W) :
    reg_value reg (T ++ W) = some v := by
  induction W using List.reverseRecOn with
  | nil => obtain ⟨v1, h⟩ := hex; simp at h
  | append_singleton W1 e ih =>
    have hfold : reg_value reg (T ++ (W1 ++ [e]))
        = reg_step reg (reg_value reg (T ++ W1)) e := by
      simp [reg_value, List.foldl_append]
    rw [hfold]
    rcases reg_step_cases reg (reg_value reg (T ++ W1)) e with ⟨hno, hsame⟩ | ⟨v1, he, hval⟩
    · rw [hsame]
      apply ih
      · intro v1 hv1
        exact hall v1 (List.mem_append_left _ hv1)
      · obtain ⟨v1, hv1⟩ := hex
        rcases List.mem_append.mp hv1 with h | h
        · exact ⟨v1, h⟩
        · simp only [List.mem_singleton] at h
          exact absurd h.symm (hno v1)
    · rw [hval]
      have : v1 = v := hall v1 (by rw [← he]; simp)
      rw [this]

end Edma

namespace Ssdk

/-- The bitwise or of two multiples of 4 is a multiple of 4. -/
theorem or_mod_four (a b : Nat) (ha : a % 4 = 0) (hb : b % 4 = 0) : (a ||| b) % 4 = 0 := by
  have h4 : (4 : Nat) = 2 ^ 2 := by norm_num
  rw [h4] at ha hb ⊢
  apply Nat.eq_of_testBit_eq
  intro i
  have hai := congrArg (fun x => x.testBit i) ha
  have hbi := congrArg (fun x => x.testBit i) hb
  simp only [Nat.testBit_mod_two_pow, Nat.zero_testBit] at hai hbi ⊢
  rw [Nat.testBit_or]
  by_cases hi : i < 2 <;> simp_all

/-- The data offset of an indirect UNIPHY access is a multiple of 4. -/
theorem uniphy_indirect_offset_aligned (defs : HppeDefs) (reg_addr : Nat) :
    uniphy_indirect_offset defs reg_addr % 4 = 0 := by
  unfold uniphy_indirect_offset
  apply or_mod_four
  · rw [Nat.shiftLeft_eq]; omega
  · rw [Nat.shiftLeft_eq]; omega

/-- Once the instance base is selected for a device whose table cell is set,
both UNIPHY functions resolve the address as the specification says. -/
theorem uniphy_resolved_of_base (codes : SwCodes) (defs : HppeDefs) (st : SsdkState)
    (mem : Nat → Nat) (dev_id uniphy_index reg_addr reg_data base : Nat)
    (hb : uniphy_base defs st dev_id uniphy_index = Except.ok (some base)) :
    uniphy_resolved_at codes defs st mem dev_id uniphy_index reg_addr reg_data base := by
  constructor
  · intro hdir
    have hnot : ¬ reg_addr > defs.HPPE_UNIPHY_MAX_DIRECT_ACCESS_REG := by omega
    simp [qca_uniphy_reg_read, qca_uniphy_reg_write, hb, hnot]
  · intro hind
    simp [qca_uniphy_reg_read, qca_uniphy_reg_write, hb, hind, uniphy_reg_addr1,
      uniphy_indirect_offset]

/-- C21 (counterexample): with `len = 4` and a valid `uniphy_index`, for
`dev_id = 7` and for `dev_id = 2` (a cell not stored yet) neither function
accesses `base + reg_addr` and returns 0: the table is indexed past its end,
respectively a NULL cell is dereferenced. -/
theorem qca_uniphy_reg_resolution_bad_dev_id :
    qca_uniphy_reg_read sample_sw_codes sample_hppe sample_ssdk sample_mem 7
        sample_hppe.SSDK_UNIPHY_INSTANCE1 0x100 0 4
      = Except.error Fault.index_out_of_bounds ∧
    qca_uniphy_reg_write sample_sw_codes sample_hppe sample_ssdk 7
        sample_hppe.SSDK_UNIPHY_INSTANCE1 0x100 0 4
      = Except.error Fault.index_out_of_bounds ∧
    qca_uniphy_reg_read sample_sw_codes sample_hppe sample_ssdk sample_mem 2
        sample_hppe.SSDK_UNIPHY_INSTANCE2 0x380000 0 4
      = Except.error Fault.null_dereference ∧
    qca_uniphy_reg_write sample_sw_codes sample_hppe sample_ssdk 2
        sample_hppe.SSDK_UNIPHY_INSTANCE2 0x380000 0 4
      = Except.error Fault.null_dereference := by
  decide

/-- C21 (amended): with `len = 4`, for every `dev_id` and `reg_addr`, both
functions return `SW_BAD_PARAM` without any register access when
`uniphy_index` is none of the three instances.  For a `dev_id` whose table
cell holds a device they resolve the address against `uniphy_hw_addr` of
the first instance, `uniphy_hw_addr + HPPE_UNIPHY_BASE1` of the
second or `uniphy_hw_addr + HPPE_UNIPHY_BASE2` of the third, tested in this order, in
the same way for read and write: directly at `base + reg_addr` up to
`HPPE_UNIPHY_MAX_DIRECT_ACCESS_REG`, through the indirect address register and
data window above it.  The data-window offset is always a multiple of 4. -/
theorem qca_uniphy_reg_resolution (codes : SwCodes) (defs : HppeDefs) (st : SsdkState)
    (mem : Nat → Nat) (dev_id uniphy_index reg_addr reg_data : Nat) :
    (uniphy_index ≠ defs.SSDK_UNIPHY_INSTANCE0 → uniphy_index ≠ defs.SSDK_UNIPHY_INSTANCE1 →
      uniphy_index ≠ defs.SSDK_UNIPHY_INSTANCE2 →
      qca_uniphy_reg_read codes defs st mem dev_id uniphy_index reg_addr reg_data 4
        = Except.ok ⟨codes.SW_BAD_PARAM, reg_data, []⟩ ∧
      qca_uniphy_reg_write codes defs st dev_id uniphy_index reg_addr reg_data 4
        = Except.ok ⟨codes.SW_BAD_PARAM, reg_data, []⟩) ∧
    (∀ priv : QcaPhyPriv, dev_id < QCA_MAX_PHY_NUM →
      st.qca_phy_priv_global dev_id = some priv →
      (uniphy_index = defs.SSDK_UNIPHY_INSTANCE0 →
        uniphy_resolved_at codes defs st mem dev_id uniphy_index reg_addr reg_data
          priv.uniphy_hw_addr) ∧
      (uniphy_index ≠ defs.SSDK_UNIPHY_INSTANCE0 →
        uniphy_index = defs.SSDK_UNIPHY_INSTANCE1 →
        uniphy_resolved_at codes defs st mem dev_id uniphy_index reg_addr reg_data
          (priv.uniphy_hw_addr + defs.HPPE_UNIPHY_BASE1)) ∧
      (uniphy_index ≠ defs.SSDK_UNIPHY_INSTANCE0 →
        uniphy_index ≠ defs.SSDK_UNIPHY_INSTANCE1 →
        uniphy_index = defs.SSDK_UNIPHY_INSTANCE2 →
        uniphy_resolved_at codes defs st mem dev_id uniphy_index reg_addr reg_data
          (priv.uniphy_hw_addr + defs.HPPE_UNIPHY_BASE2))) ∧
    uniphy_indirect_offset defs reg_addr % 4 = 0 := by
  refine ⟨?_, ?_, uniphy_indirect_offset_aligned defs reg_addr⟩
  · intro h0 h1 h2
    have hb : uniphy_base defs st dev_id uniphy_index = Except.ok none := by
      unfold uniphy_base
      rw [if_neg (Ne.symm h0), if_neg (Ne.symm h1), if_neg (Ne.symm h2)]
    simp [qca_uniphy_reg_read, qca_uniphy_reg_write, hb]
  · intro priv hdev hset
    refine ⟨?_, ?_, ?_⟩
    · intro h0
      apply uniphy_resolved_of_base
      unfold uniphy_base
      rw [if_pos h0.symm]
      simp [deref_priv, hdev, hset, Except.map]
    · intro h0 h1
      apply uniphy_resolved_of_base
      unfold uniphy_base
      rw [if_neg (Ne.symm h0), if_pos h1.symm]
      simp [deref_priv, hdev, hset, Except.map]
    · intro h0 h1 h2
      apply uniphy_resolved_of_base
      unfold uniphy_base
      rw [if_neg (Ne.symm h0), if_neg (Ne.symm h1), if_pos h2.symm]
      simp [deref_priv, hdev, hset, Except.map]

/-- Witness for C21: the indirect address `0x1f8001` on instance 1 of the
registered device 0 goes through the address register at `0x7a183fc` and the
data window at `0x7a18004`. -/
theorem qca_uniphy_reg_resolution_witness :
    qca_uniphy_reg_read sample_sw_codes sample_hppe sample_ssdk sample_mem 0 1 0x1f8001 0 4
      = Except.ok ⟨0, 0x7a18005,
          [MmioEvent.writel 0x1f80 0x7a183fc, MmioEvent.readl 0x7a18004]⟩ ∧
    qca_uniphy_reg_write sample_sw_codes sample_hppe sample_ssdk 0 1 0x1f8001 77 4
      = Except.ok ⟨0, 77,
          [MmioEvent.writel 0x1f80 0x7a183fc, MmioEvent.writel 77 0x7a18004]⟩ :=
  ⟨((((qca_uniphy_reg_resolution sample_sw_codes sample_hppe sample_ssdk sample_mem
        0 1 0x1f8001 0).2.1 sample_priv (by decide) rfl).2.1 (by decide) rfl).2
        (by decide)).1,
   ((((qca_uniphy_reg_resolution sample_sw_codes sample_hppe sample_ssdk sample_mem
        0 1 0x1f8001 77).2.1 sample_priv (by decide) rfl).2.1 (by decide) rfl).2
        (by decide)).2⟩

end Ssdk

namespace Ssdk

/-- C8 (counterexample): on the registered device 0 and UNIPHY instance 0, with
`len = 4`, the address `0x1f8001` is not a multiple of 4 and is not rejected:
being above `HPPE_UNIPHY_MAX_DIRECT_ACCESS_REG` it goes through the indirect
window, and both functions return 0 after two register accesses. -/
theorem qca_uniphy_reg_accepts_unaligned_indirect :
    0x1f8001 % 4 ≠ 0 ∧
    0x1f8001 > sample_hppe.HPPE_UNIPHY_MAX_DIRECT_ACCESS_REG ∧
    qca_uniphy_reg_read sample_sw_codes sample_hppe sample_ssdk sample_mem 0
        sample_hppe.SSDK_UNIPHY_INSTANCE0 0x1f8001 0 4
      = Except.ok ⟨0, 0x7a08005,
          [MmioEvent.writel 0x1f80 0x7a083fc, MmioEvent.readl 0x7a08004]⟩ ∧
    qca_uniphy_reg_write sample_sw_codes sample_hppe sample_ssdk 0
        sample_hppe.SSDK_UNIPHY_INSTANCE0 0x1f8001 77 4
      = Except.ok ⟨0, 77,
          [MmioEvent.writel 0x1f80 0x7a083fc, MmioEvent.writel 77 0x7a08004]⟩ := by
  decide

/-- C8 (amended): for every `dev_id` whose table cell holds a device, every
valid `uniphy_index` and `len = 4`, a `reg_addr` above
`HPPE_UNIPHY_MAX_DIRECT_ACCESS_REG` is accepted whether or not it is a multiple
of 4: both functions write `(reg_addr & 0xffffff) >> 8` to the indirect address
register, access the data window at an offset that is a multiple of 4, and
return 0.  A `reg_addr` up to `HPPE_UNIPHY_MAX_DIRECT_ACCESS_REG` that is a
multiple of 4 is accessed at `base + reg_addr`, and 0 is returned.  Nothing is
said here of a direct `reg_addr` that is not a multiple of 4. -/
theorem qca_uniphy_reg_alignment_by_path (codes : SwCodes) (defs : HppeDefs)
    (st : SsdkState) (mem : Nat → Nat) (dev_id uniphy_index reg_addr reg_data : Nat)
    (priv : QcaPhyPriv) (hdev : dev_id < QCA_MAX_PHY_NUM)
    (hset : st.qca_phy_priv_global dev_id = some priv)
    (hidx : uniphy_index = defs.SSDK_UNIPHY_INSTANCE0 ∨
      uniphy_index = defs.SSDK_UNIPHY_INSTANCE1 ∨
      uniphy_index = defs.SSDK_UNIPHY_INSTANCE2) :
    ∃ base, uniphy_base defs st dev_id uniphy_index = Except.ok (some base) ∧
      (reg_addr > defs.HPPE_UNIPHY_MAX_DIRECT_ACCESS_REG →
        qca_uniphy_reg_read codes defs st mem dev_id uniphy_index reg_addr reg_data 4
          = Except.ok ⟨0, mem (base + uniphy_indirect_offset defs reg_addr),
              [MmioEvent.writel ((reg_addr &&& 0xffffff) >>> 8)
                 (base + defs.HPPE_UNIPHY_INDIRECT_REG_ADDR),
               MmioEvent.readl (base + uniphy_indirect_offset defs reg_addr)]⟩ ∧
        qca_uniphy_reg_write codes defs st dev_id uniphy_index reg_addr reg_data 4
          = Except.ok ⟨0, reg_data,
              [MmioEvent.writel ((reg_addr &&& 0xffffff) >>> 8)
                 (base + defs.HPPE_UNIPHY_INDIRECT_REG_ADDR),
               MmioEvent.writel reg_data (base + uniphy_indirect_offset defs reg_addr)]⟩ ∧
        uniphy_indirect_offset defs reg_addr % 4 = 0) ∧
      (reg_addr ≤ defs.HPPE_UNIPHY_MAX_DIRECT_ACCESS_REG → reg_addr % 4 = 0 →
        qca_uniphy_reg_read codes defs st mem dev_id uniphy_index reg_addr reg_data 4
          = Except.ok ⟨0, mem (base + reg_addr), [MmioEvent.readl (base + reg_addr)]⟩ ∧
        qca_uniphy_reg_write codes defs st dev_id uniphy_index reg_addr reg_data 4
          = Except.ok ⟨0, reg_data, [MmioEvent.writel reg_data (base + reg_addr)]⟩) := by
  have hb : uniphy_base defs st dev_id uniphy_index = Except.ok (some
      (if defs.SSDK_UNIPHY_INSTANCE0 = uniphy_index then priv.uniphy_hw_addr
        else if defs.SSDK_UNIPHY_INSTANCE1 = uniphy_index then
          priv.uniphy_hw_addr + defs.HPPE_UNIPHY_BASE1
        else priv.uniphy_hw_addr + defs.HPPE_UNIPHY_BASE2)) := by
    unfold uniphy_base deref_priv
    simp only [hdev, if_true, hset, Except.map]
    rcases hidx with h | h | h <;> split_ifs <;> simp_all
  refine ⟨_, hb, ?_, ?_⟩
  · intro hind
    have hres := (uniphy_resolved_of_base codes defs st mem dev_id uniphy_index reg_addr
      reg_data _ hb).2 hind
    exact ⟨hres.1, hres.2, uniphy_indirect_offset_aligned defs reg_addr⟩
  · intro hdir _
    exact (uniphy_resolved_of_base codes defs st mem dev_id uniphy_index reg_addr
      reg_data _ hb).1 hdir

/-- Witness for C8: the unaligned indirect address `0x380002` on instance 2 of
the registered device 0 goes through the address register at `0x7a283fc` and
the data window at `0x7a28008`. -/
theorem qca_uniphy_reg_alignment_by_path_witness :
    0x380002 % 4 ≠ 0 ∧
    qca_uniphy_reg_read sample_sw_codes sample_hppe sample_ssdk sample_mem 0 2 0x380002 0 4
      = Except.ok ⟨0, 0x7a28009,
          [MmioEvent.writel 0x3800 0x7a283fc, MmioEvent.readl 0x7a28008]⟩ ∧
    qca_uniphy_reg_write sample_sw_codes sample_hppe sample_ssdk 0 2 0x380002 77 4
      = Except.ok ⟨0, 77,
          [MmioEvent.writel 0x3800 0x7a283fc, MmioEvent.writel 77 0x7a28008]⟩ ∧
    uniphy_indirect_offset sample_hppe 0x380002 % 4 = 0 := by
  obtain ⟨base, hb, hind, _⟩ := qca_uniphy_reg_alignment_by_path sample_sw_codes
    sample_hppe sample_ssdk sample_mem 0 2 0x380002 77 sample_priv (by decide) rfl
    (Or.inr (Or.inr rfl))
  have hbase : base = 0x7a20000 := by
    have h2 : uniphy_base sample_hppe sample_ssdk 0 2 = Except.ok (some 0x7a20000) := by
      decide
    rw [h2] at hb
    injection hb with hb
    injection hb with hb
    exact hb.symm
  subst hbase
  exact ⟨by decide, by decide, (hind (by decide)).2.1, (hind (by decide)).2.2⟩

end Ssdk

namespace Edma

/-- A "Get ... rings IRQ numbers" loop over the cells `s, ..., s+n-1` that runs
to its end has stored in cell `i` the IRQ number `platform_get_irq` gives for
entry `e + (i - s)`, found it non-negative, advanced `entry_num` by `n`, and
left the cells below `s` alone. -/
theorem get_irq_loop_ok (env : IrqEnv) : ∀ (n s e : Nat) (intr : Nat → Int) (e1 : Nat),
    (get_irq_loop env (List.range' s n) e intr).1 = some e1 →
    e1 = e + n ∧
    (∀ i, s ≤ i → i < s + n →
      (get_irq_loop env (List.range' s n) e intr).2 i = env.platform_get_irq (e + (i - s)) ∧
      0 ≤ env.platform_get_irq (e + (i - s))) ∧
    (∀ i, i < s → (get_irq_loop env (List.range' s n) e intr).2 i = intr i) := by
  intro n
  induction n with
  | zero =>
    intro s e intr e1 h
    rw [List.range'_zero] at h ⊢
    simp only [get_irq_loop, Option.some.injEq] at h
    exact ⟨by omega, fun i h1 h2 => by omega, fun i _ => rfl⟩
  | succ n ih =>
    intro s e intr e1 h
    rw [List.range'_succ] at h ⊢
    simp only [get_irq_loop] at h ⊢
    by_cases hneg : Function.update intr s (env.platform_get_irq e) s < 0
    · rw [if_pos hneg] at h
      simp at h
    · rw [if_neg hneg] at h ⊢
      obtain ⟨he, hin, hlow⟩ := ih (s + 1) (e + 1)
        (Function.update intr s (env.platform_get_irq e)) e1 h
      have hs : Function.update intr s (env.platform_get_irq e) s = env.platform_get_irq e :=
        Function.update_same _ _ _
      refine ⟨by omega, ?_, ?_⟩
      · intro i h1 h2
        by_cases his : i = s
        · subst his
          rw [hlow i (by omega), hs, Nat.sub_self, Nat.add_zero]
          exact ⟨rfl, by rw [hs] at hneg; omega⟩
        · have harg : e + 1 + (i - (s + 1)) = e + (i - s) := by omega
          have := hin i (by omega) (by omega)
          rw [harg] at this
          exact this
      · intro i hi
        rw [hlow i (by omega)]
        exact Function.update_noteq (by omega) _ _

/-- When the tables of `edma_hw` hold the IRQ numbers `platform_get_irq` gives
for the successive resource entries, the requests read from the tables are
the requests the specification expects. -/
theorem irq_table_requests_eq (env : IrqEnv) (hw hw4 : EdmaHw)
    (hp : hw4.pdev = hw.pdev) (ht : hw4.txcmpl_rings = hw.txcmpl_rings)
    (hf : hw4.rxfill_rings = hw.rxfill_rings) (hd : hw4.rxdesc_rings = hw.rxdesc_rings)
    (hA : ∀ i, i < hw.txcmpl_rings → hw4.txcmpl_intr i = env.platform_get_irq i)
    (hB : ∀ i, i < hw.rxfill_rings →
      hw4.rxfill_intr i = env.platform_get_irq (hw.txcmpl_rings + i))
    (hC : ∀ i, i < hw.rxdesc_rings →
      hw4.rxdesc_intr i = env.platform_get_irq (hw.txcmpl_rings + hw.rxfill_rings + i))
    (hM : hw4.misc_intr
      = env.platform_get_irq (hw.txcmpl_rings + hw.rxfill_rings + hw.rxdesc_rings)) :
    irq_table_requests hw4 = irq_init_requests env hw := by
  simp only [irq_table_requests, irq_init_requests, hp, ht, hf, hd, hM]
  congr 1
  congr 1
  congr 1
  · apply List.map_congr_left
    intro i hi
    rw [hA i (List.mem_range.mp hi)]
  · apply List.map_congr_left
    intro i hi
    rw [hB i (List.mem_range.mp hi)]
  · apply List.map_congr_left
    intro i hi
    rw [hC i (List.mem_range.mp hi)]

/-- The two outcomes of `edma_irq_init`.  It returns 0 with the IRQ tables
filled from `platform_get_irq`, entry by entry, and the trace extended by the
expected requests and mask writes; or it returns -1 without any register
write. -/
theorem edma_irq_init_outcomes (env : IrqEnv) (hw : EdmaHw) (k : Kernel) :
    ((edma_irq_init env hw k).1 = 0 ∧
      (∀ i, i < hw.txcmpl_rings →
        (edma_irq_init env hw k).2.1.txcmpl_intr i = env.platform_get_irq i ∧
        0 ≤ env.platform_get_irq i) ∧
      (∀ i, i < hw.rxfill_rings →
        (edma_irq_init env hw k).2.1.rxfill_intr i
          = env.platform_get_irq (hw.txcmpl_rings + i) ∧
        0 ≤ env.platform_get_irq (hw.txcmpl_rings + i)) ∧
      (∀ i, i < hw.rxdesc_rings →
        (edma_irq_init env hw k).2.1.rxdesc_intr i
          = env.platform_get_irq (hw.txcmpl_rings + hw.rxfill_rings + i) ∧
        0 ≤ env.platform_get_irq (hw.txcmpl_rings + hw.rxfill_rings + i)) ∧
      (edma_irq_init env hw k).2.1.misc_intr
        = env.platform_get_irq (hw.txcmpl_rings + hw.rxfill_rings + hw.rxdesc_rings) ∧
      (edma_irq_init env hw k).2.2.trace
        = k.trace ++ irq_init_requests env hw ++ irq_init_mask_writes hw) ∨
    ((edma_irq_init env hw k).1 = -1 ∧
      ∃ l, (edma_irq_init env hw k).2.2.trace = k.trace ++ l ∧ no_reg_write l) := by
  have hnil : ∃ l, k.trace = k.trace ++ l ∧ no_reg_write l :=
    ⟨[], by simp, by intro e he; simp at he⟩
  simp only [edma_irq_init]
  split
  · right; exact ⟨rfl, hnil⟩
  next e1 h1 =>
    split
    · right; exact ⟨rfl, hnil⟩
    next e2 h2 =>
      split
      · right; exact ⟨rfl, hnil⟩
      next e3 h3 =>
        rw [List.range_eq_range'] at h1 h2 h3
        obtain ⟨he1, hA, _⟩ := get_irq_loop_ok env _ _ _ _ _ h1
        obtain ⟨he2, hB, _⟩ := get_irq_loop_ok env _ _ _ _ _ h2
        obtain ⟨he3, hC, _⟩ := get_irq_loop_ok env _ _ _ _ _ h3
        have hA' : ∀ i, i < hw.txcmpl_rings →
            (get_irq_loop env (List.range hw.txcmpl_rings) 0 hw.txcmpl_intr).2 i
              = env.platform_get_irq i ∧ 0 ≤ env.platform_get_irq i := by
          intro i hi
          have := hA i (Nat.zero_le _) (by omega)
          rw [List.range_eq_range']
          simpa using this
        have hB' : ∀ i, i < hw.rxfill_rings →
            (get_irq_loop env (List.range hw.rxfill_rings) e1 hw.rxfill_intr).2 i
              = env.platform_get_irq (hw.txcmpl_rings + i) ∧
              0 ≤ env.platform_get_irq (hw.txcmpl_rings + i) := by
          intro i hi
          have := hB i (Nat.zero_le _) (by omega)
          rw [List.range_eq_range']
          have he : e1 = hw.txcmpl_rings := by omega
          rw [he] at this ⊢
          simpa using this
        have hC' : ∀ i, i < hw.rxdesc_rings →
            (get_irq_loop env (List.range hw.rxdesc_rings) e2 hw.rxdesc_intr).2 i
              = env.platform_get_irq (hw.txcmpl_rings + hw.rxfill_rings + i) ∧
              0 ≤ env.platform_get_irq (hw.txcmpl_rings + hw.rxfill_rings + i) := by
          intro i hi
          have := hC i (Nat.zero_le _) (by omega)
          rw [List.range_eq_range']
          have he : e2 = hw.txcmpl_rings + hw.rxfill_rings := by omega
          rw [he] at this ⊢
          simpa using this
        have hM : env.platform_get_irq e3
            = env.platform_get_irq (hw.txcmpl_rings + hw.rxfill_rings + hw.rxdesc_rings) := by
          have he : e3 = hw.txcmpl_rings + hw.rxfill_rings + hw.rxdesc_rings := by omega
          rw [he]
        rcases irq_init_request_spec env
          { hw with
            txcmpl_intr := (get_irq_loop env (List.range hw.txcmpl_rings) 0 hw.txcmpl_intr).2
            rxfill_intr := (get_irq_loop env (List.range hw.rxfill_rings) e1 hw.rxfill_intr).2
            rxdesc_intr := (get_irq_loop env (List.range hw.rxdesc_rings) e2 hw.rxdesc_intr).2
            misc_intr := env.platform_get_irq e3 } k with ⟨hr, htr⟩ | ⟨hr, hl⟩
        · left
          refine ⟨hr, hA', hB', hC', hM, ?_⟩
          rw [htr]
          rw [irq_table_requests_eq env hw
            { hw with
              txcmpl_intr :=
                (get_irq_loop env (List.range hw.txcmpl_rings) 0 hw.txcmpl_intr).2
              rxfill_intr :=
                (get_irq_loop env (List.range hw.rxfill_rings) e1 hw.rxfill_intr).2
              rxdesc_intr :=
                (get_irq_loop env (List.range hw.rxdesc_rings) e2 hw.rxdesc_intr).2
              misc_intr := env.platform_get_irq e3 }
            rfl rfl rfl rfl
            (fun i hi => (hA' i hi).1) (fun i hi => (hB' i hi).1)
            (fun i hi => (hC' i hi).1) hM]
          rfl
        · right
          exact ⟨hr, hl⟩

/-- C15: `edma_irq_init` returns 0 or -1.  When it returns 0, it has read the
IRQ number of every TXCMPL, RXFILL and RXDESC ring and of the misc interrupt
from `platform_get_irq`, one resource entry each in this order, found the
ring numbers non-negative, and has appended to the trace exactly one
`request_irq` for each of these interrupts, with that IRQ number, followed by
the mask writes; afterwards `EDMA_REG_RXFILL_INT_MASK(id)` of every RXFILL ring
holds `rxfill_intr_mask`, `EDMA_REG_TX_INT_MASK(id)` of every TXCMPL ring holds
`txcmpl_intr_mask`, `EDMA_REG_RXDESC_INT_MASK(id)` of every RXDESC ring holds
`rxdesc_intr_mask` and `EDMA_REG_MISC_INT_MASK` holds `misc_intr_mask`.  When
it returns a negative value, no register has been written. -/
theorem edma_irq_init_postcondition (env : IrqEnv) (hw : EdmaHw) (k : Kernel) :
    ((edma_irq_init env hw k).1 = 0 ∨ (edma_irq_init env hw k).1 = -1) ∧
    ((edma_irq_init env hw k).1 = 0 →
      (∀ i, i < hw.txcmpl_rings →
        (edma_irq_init env hw k).2.1.txcmpl_intr i = env.platform_get_irq i ∧
        0 ≤ env.platform_get_irq i) ∧
      (∀ i, i < hw.rxfill_rings →
        (edma_irq_init env hw k).2.1.rxfill_intr i
          = env.platform_get_irq (hw.txcmpl_rings + i) ∧
        0 ≤ env.platform_get_irq (hw.txcmpl_rings + i)) ∧
      (∀ i, i < hw.rxdesc_rings →
        (edma_irq_init env hw k).2.1.rxdesc_intr i
          = env.platform_get_irq (hw.txcmpl_rings + hw.rxfill_rings + i) ∧
        0 ≤ env.platform_get_irq (hw.txcmpl_rings + hw.rxfill_rings + i)) ∧
      (edma_irq_init env hw k).2.1.misc_intr
        = env.platform_get_irq (hw.txcmpl_rings + hw.rxfill_rings + hw.rxdesc_rings) ∧
      (edma_irq_init env hw k).2.2.trace
        = k.trace ++ irq_init_requests env hw ++ irq_init_mask_writes hw ∧
      (∀ i, i < hw.rxfill_rings →
        reg_value (EdmaReg.RXFILL_INT_MASK (hw.rxfill_ring i).id)
          (edma_irq_init env hw k).2.2.trace = some hw.rxfill_intr_mask) ∧
      (∀ i, i < hw.txcmpl_rings →
        reg_value (EdmaReg.TX_INT_MASK (hw.txcmpl_ring i).id)
          (edma_irq_init env hw k).2.2.trace = some hw.txcmpl_intr_mask) ∧
      (∀ i, i < hw.rxdesc_rings →
        reg_value (EdmaReg.RXDESC_INT_MASK (hw.rxdesc_ring i).id)
          (edma_irq_init env hw k).2.2.trace = some hw.rxdesc_intr_mask) ∧
      reg_value EdmaReg.MISC_INT_MASK (edma_irq_init env hw k).2.2.trace
        = some hw.misc_intr_mask) ∧
    ((edma_irq_init env hw k).1 < 0 →
      ∃ l, (edma_irq_init env hw k).2.2.trace = k.trace ++ l ∧ no_reg_write l) := by
  have hmain := edma_irq_init_outcomes env hw k
  refine ⟨?_, ?_, ?_⟩
  · rcases hmain with ⟨h, _⟩ | ⟨h, _⟩
    · left; exact h
    · right; exact h
  · intro hret
    rcases hmain with ⟨_, hA, hB, hC, hM, htr⟩ | ⟨h, _⟩
    · refine ⟨hA, hB, hC, hM, htr, ?_, ?_, ?_, ?_⟩
      · intro i hi
        rw [htr]
        apply reg_value_last_writes
        · intro v1 hv1
          simp only [irq_init_mask_writes, List.mem_append, List.mem_map, List.mem_range,
            List.mem_singleton, KEvent.reg_write.injEq, reduceCtorEq, false_and, and_false,
            exists_false, or_false] at hv1
          obtain ⟨j, _, _, hv⟩ := hv1
          exact hv.symm
        · exact ⟨hw.rxfill_intr_mask, by
            simp only [irq_init_mask_writes, List.mem_append, List.mem_map, List.mem_range]
            exact Or.inl (Or.inl (Or.inl ⟨i, hi, rfl⟩))⟩
      · intro i hi
        rw [htr]
        apply reg_value_last_writes
        · intro v1 hv1
          simp only [irq_init_mask_writes, List.mem_append, List.mem_map, List.mem_range,
            List.mem_singleton, KEvent.reg_write.injEq, reduceCtorEq, false_and, and_false,
            exists_false, or_false, false_or] at hv1
          obtain ⟨j, _, _, hv⟩ := hv1
          exact hv.symm
        · exact ⟨hw.txcmpl_intr_mask, by
            simp only [irq_init_mask_writes, List.mem_append, List.mem_map, List.mem_range]
            exact Or.inl (Or.inl (Or.inr ⟨i, hi, rfl⟩))⟩
      · intro i hi
        rw [htr]
        apply reg_value_last_writes
        · intro v1 hv1
          simp only [irq_init_mask_writes, List.mem_append, List.mem_map, List.mem_range,
            List.mem_singleton, KEvent.reg_write.injEq, reduceCtorEq, false_and, and_false,
            exists_false, or_false, false_or] at hv1
          obtain ⟨j, _, _, hv⟩ := hv1
          exact hv.symm
        · exact ⟨hw.rxdesc_intr_mask, by
            simp only [irq_init_mask_writes, List.mem_append, List.mem_map, List.mem_range]
            exact Or.inl (Or.inr ⟨i, hi, rfl⟩)⟩
      · rw [htr]
        apply reg_value_last_writes
        · intro v1 hv1
          simp only [irq_init_mask_writes, List.mem_append, List.mem_map, List.mem_range,
            List.mem_singleton, KEvent.reg_write.injEq, reduceCtorEq, false_and, and_false,
            exists_false, or_false, false_or, true_and] at hv1
          exact hv1
        · exact ⟨hw.misc_intr_mask, by simp [irq_init_mask_writes]⟩
    · rw [h] at hret; simp at hret
  · intro hret
    rcases hmain with ⟨h, _⟩ | ⟨_, hl⟩
    · rw [h] at hret; simp at hret
    · exact hl

/-- Witness for C15: with one ring of each type and every request succeeding,
the call returns 0, the RXFILL interrupt is resource entry 1 (IRQ 101), the
four requests carry the IRQ numbers 100 to 103 and the RXFILL mask register of
ring 7 holds the mask 2. -/
theorem edma_irq_init_postcondition_witness :
    (edma_irq_init (sample_irq_env [] 16) (sample_hw 23 1 7 1 7 1 15 1 0) kernel0).1 = 0 ∧
    (edma_irq_init (sample_irq_env [] 16)
      (sample_hw 23 1 7 1 7 1 15 1 0) kernel0).2.1.rxfill_intr 0 = 101 ∧
    irq_init_requests (sample_irq_env [] 16) (sample_hw 23 1 7 1 7 1 15 1 0)
      = [KEvent.request_irq 100 IrqHandler.edma_handle_irq "edma_txcmpl" 0x1000,
         KEvent.request_irq 101 IrqHandler.edma_handle_irq "edma_rxfill" 0x1000,
         KEvent.request_irq 102 IrqHandler.edma_handle_irq "edma_rxdesc" 0x1000,
         KEvent.request_irq 103 IrqHandler.edma_handle_misc_irq "edma_misc" 0x1000] ∧
    reg_value (EdmaReg.RXFILL_INT_MASK 7)
      (edma_irq_init (sample_irq_env [] 16) (sample_hw 23 1 7 1 7 1 15 1 0) kernel0).2.2.trace
      = some 2 :=
  ⟨by decide,
   (((edma_irq_init_postcondition (sample_irq_env [] 16) (sample_hw 23 1 7 1 7 1 15 1 0)
      kernel0).2.1 (by decide)).2.1 0 (by decide)).1,
   by decide,
   ((edma_irq_init_postcondition (sample_irq_env [] 16) (sample_hw 23 1 7 1 7 1 15 1 0)
      kernel0).2.1 (by decide)).2.2.2.2.2.1 0 (by decide)⟩

end Edma

namespace Edma

/-- `dev_clock_rate_set_and_enable` touches only the clock fields of the kernel
state. -/
theorem dev_clock_rate_set_and_enable_frame (dt : EdmaDt) (k : Kernel) (c : String)
    (rate : Nat) :
    (dev_clock_rate_set_and_enable dt k c rate).mem_region_held = k.mem_region_held ∧
    (dev_clock_rate_set_and_enable dt k c rate).reg_mapped = k.reg_mapped ∧
    (dev_clock_rate_set_and_enable dt k c rate).trace = k.trace := by
  unfold dev_clock_rate_set_and_enable
  split_ifs <;> exact ⟨rfl, rfl, rfl⟩

/-- A run of `dev_clock_rate_set_and_enable` calls touches only the clock fields
of the kernel state. -/
theorem clock_init_fold_frame (dt : EdmaDt) (l : List (String × Nat)) (k : Kernel) :
    (l.foldl (fun k c => dev_clock_rate_set_and_enable dt k c.1 c.2) k).mem_region_held
      = k.mem_region_held ∧
    (l.foldl (fun k c => dev_clock_rate_set_and_enable dt k c.1 c.2) k).reg_mapped
      = k.reg_mapped ∧
    (l.foldl (fun k c => dev_clock_rate_set_and_enable dt k c.1 c.2) k).trace = k.trace := by
  induction l generalizing k with
  | nil => exact ⟨rfl, rfl, rfl⟩
  | cons c l ih =>
    simp only [List.foldl_cons]
    obtain ⟨h1, h2, h3⟩ := ih (dev_clock_rate_set_and_enable dt k c.1 c.2)
    obtain ⟨g1, g2, g3⟩ := dev_clock_rate_set_and_enable_frame dt k c.1 c.2
    exact ⟨h1.trans g1, h2.trans g2, h3.trans g3⟩

/-- The kernel state `edma_of_get_pdata` leaves: untouched when the node is not
found; one node reference more when the platform device is not found; after
that one device reference more and the fixed clocks set up, whatever the later
lookups answer. -/
theorem edma_of_get_pdata_kernel (dt : EdmaDt) (hw : EdmaHw) (k : Kernel) :
    (edma_of_get_pdata dt hw k).2.2 =
      if dt.device_node = 0 then k
      else if dt.pdev = 0 then { k with node_refs := k.node_refs + 1 }
      else ssdk_ppe_fixed_clock_init dt
        { k with node_refs := k.node_refs + 1, device_refs := k.device_refs + 1 } := by
  simp only [edma_of_get_pdata]
  split_ifs <;> first | rfl | (repeat' (split <;> try rfl))

/-- The register region, the register mapping and the call trace are not
touched by `edma_of_get_pdata`. -/
theorem edma_of_get_pdata_frame (dt : EdmaDt) (hw : EdmaHw) (k : Kernel) :
    (edma_of_get_pdata dt hw k).2.2.mem_region_held = k.mem_region_held ∧
    (edma_of_get_pdata dt hw k).2.2.reg_mapped = k.reg_mapped ∧
    (edma_of_get_pdata dt hw k).2.2.trace = k.trace := by
  rw [edma_of_get_pdata_kernel]
  split_ifs
  · exact ⟨rfl, rfl, rfl⟩
  · exact ⟨rfl, rfl, rfl⟩
  · exact clock_init_fold_frame dt ssdk_ppe_fixed_clocks _

/-- C6, counterexample: on the sample device tree `request_mem_region` fails and
`edma_init` returns `-EFAULT`; the kernel held no reference and no clock
before the call, and after it the driver holds one reference on the EDMA node,
one on its platform device, and all 29 fixed clocks obtained and enabled, 27
of them with their rate set.  The same holds when `ioremap_nocache` or
`edma_hw_init` fails, after the region and mapping have been given back. -/
theorem edma_init_failure_keeps_references_and_clocks :
    kernel0.node_refs = 0 ∧ kernel0.device_refs = 0 ∧
    kernel0.clocks_enabled = [] ∧ kernel0.clock_rates = [] ∧
    (edma_init (sample_init_env false true 0) (sample_hw 0 0 0 0 0 0 0 0 0) kernel0).1
      = -EFAULT ∧
    (edma_init (sample_init_env false true 0) (sample_hw 0 0 0 0 0 0 0 0 0) kernel0).2.2
      = { kernel0 with
          node_refs := 1
          device_refs := 1
          clock_rates := ssdk_ppe_fixed_clocks.drop 2
          clocks_enabled := ssdk_ppe_fixed_clocks.map Prod.fst
          trace := [KEvent.request_mem_region] } ∧
    (ssdk_ppe_fixed_clocks.map Prod.fst).length = 29 ∧
    (edma_init (sample_init_env true false 0) (sample_hw 0 0 0 0 0 0 0 0 0) kernel0).1
      = -EFAULT ∧
    (edma_init (sample_init_env true false 0) (sample_hw 0 0 0 0 0 0 0 0 0) kernel0).2.2
      = { kernel0 with
          node_refs := 1
          device_refs := 1
          clock_rates := ssdk_ppe_fixed_clocks.drop 2
          clocks_enabled := ssdk_ppe_fixed_clocks.map Prod.fst
          trace := [KEvent.request_mem_region, KEvent.ioremap_nocache,
            KEvent.release_mem_region] } ∧
    (edma_init (sample_init_env true true 1) (sample_hw 0 0 0 0 0 0 0 0 0) kernel0).1
      = -EFAULT ∧
    (edma_init (sample_init_env true true 1) (sample_hw 0 0 0 0 0 0 0 0 0) kernel0).2.2
      = { kernel0 with
          node_refs := 1
          device_refs := 1
          clock_rates := ssdk_ppe_fixed_clocks.drop 2
          clocks_enabled := ssdk_ppe_fixed_clocks.map Prod.fst
          trace := [KEvent.request_mem_region, KEvent.ioremap_nocache,
            KEvent.edma_hw_init, KEvent.iounmap, KEvent.release_mem_region] } := by
  decide

/-- C6, amended: whenever `edma_init` returns a non-zero value, that value is
`-EFAULT`, the device-tree data had been read, and the register memory region
and register mapping are rolled back: either `request_mem_region` failed and
neither was acquired (region and mapping state as before the call); or
`ioremap_nocache` failed and the region was released again; or `edma_hw_init`
failed and the mapping was unmapped and the region released. -/
theorem edma_init_failure_releases (env : InitEnv) (hw : EdmaHw) (k : Kernel)
    (hret : (edma_init env hw k).1 ≠ 0) :
    (edma_init env hw k).1 = -EFAULT ∧
    ¬ (edma_of_get_pdata env.dt hw k).1 < 0 ∧
    ((env.request_mem_region_ok = false ∧
        (edma_init env hw k).2.2.mem_region_held = k.mem_region_held ∧
        (edma_init env hw k).2.2.reg_mapped = k.reg_mapped ∧
        (edma_init env hw k).2.2.trace = k.trace ++ [KEvent.request_mem_region]) ∨
     (env.request_mem_region_ok = true ∧ env.ioremap_ok = false ∧
        (edma_init env hw k).2.2.mem_region_held = false ∧
        (edma_init env hw k).2.2.reg_mapped = k.reg_mapped ∧
        (edma_init env hw k).2.2.trace = k.trace ++
          [KEvent.request_mem_region, KEvent.ioremap_nocache, KEvent.release_mem_region]) ∨
     (env.request_mem_region_ok = true ∧ env.ioremap_ok = true ∧
        (env.edma_hw_init (edma_of_get_pdata env.dt hw k).2.1).1 ≠ 0 ∧
        (edma_init env hw k).2.2.mem_region_held = false ∧
        (edma_init env hw k).2.2.reg_mapped = false ∧
        (edma_init env hw k).2.2.trace = k.trace ++
          [KEvent.request_mem_region, KEvent.ioremap_nocache, KEvent.edma_hw_init,
           KEvent.iounmap, KEvent.release_mem_region])) := by
  obtain ⟨f1, f2, f3⟩ := edma_of_get_pdata_frame env.dt hw k
  by_cases hpd : (edma_of_get_pdata env.dt hw k).1 < 0
  · simp [edma_init, hpd] at hret
  · by_cases hreq : env.request_mem_region_ok = false
    · simp [edma_init, hpd, hreq, Kernel.log, f1, f2, f3]
    · by_cases hmap : env.ioremap_ok = false
      · simp [edma_init, hpd, hreq, hmap, edma_init_remap_fail, Kernel.log, f2, f3]
      · by_cases hhw : (env.edma_hw_init (edma_of_get_pdata env.dt hw k).2.1).1 = 0
        · simp [edma_init, hpd, hreq, hmap, hhw] at hret
        · simp only [Bool.not_eq_false] at hreq hmap
          simp [edma_init, hpd, hreq, hmap, hhw, edma_init_hw_init_fail,
            edma_init_remap_fail, Kernel.log, f3]

/-- Witness for C6: `ioremap_nocache` fails after the region was obtained. -/
theorem edma_init_failure_releases_witness :
    (edma_init (sample_init_env true false 0) (sample_hw 0 0 0 0 0 0 0 0 0) kernel0).1 ≠ 0 ∧
    (edma_init (sample_init_env true false 0) (sample_hw 0 0 0 0 0 0 0 0 0) kernel0).1
      = -EFAULT ∧
    (edma_init (sample_init_env true false 0) (sample_hw 0 0 0 0 0 0 0 0 0)
      kernel0).2.2.mem_region_held = false :=
  ⟨by decide,
    (edma_init_failure_releases (sample_init_env true false 0)
      (sample_hw 0 0 0 0 0 0 0 0 0) kernel0 (by decide)).1,
    by decide⟩

end Edma
